import Mathlib

/-!
Verification development for the `tcf_to_ometiff` converter
(`src/tcf_to_ometiff/tcf_to_ometiff.py`).

The Python module converts a Tomocube TCF (HDF5) microscopy container into a
single OME-TIFF with embedded OME-XML metadata.  We shallowly embed the pure
core of the module: the key-value config reader, the metadata object builders
(`def_channel`, `def_annotations`, `def_ht_fl_shift_stagelabel`, `def_plane`,
`def_experiment`), the per-image plane/offset bookkeeping of `build_ome_xml`,
and the modality loop of `transform_tcf` / `transform_folder`.

Modelling conventions:
* Python dicts of strings are association lists `List (String × String)`;
  lookup follows dict-comprehension semantics (later duplicate keys win).
* Python numbers read from files/attrs are `Rat` (floats) or `Nat`/`Int`.
  NumPy/Python `round(x, 2)` and `np.round(x, 2)` are `npRound2` (half-even).
* A Python `KeyError`/`IndexError`/`NameError` is `Option.none` in pure
  builders and `Except.error` in the folder pipeline.
* HDF5 groups/datasets are explicit structures; raw dataset array shapes are
  carried as `List Nat` (the external container supplies the arrays).
-/

namespace Tcf

/-! ### Python string helpers -/

/-- Python `str.startswith`, on character lists. -/
def pyStartsWith (s pre : String) : Bool := pre.data.isPrefixOf s.data

/-- Python `s[n:]` (drop first `n` characters). -/
def pyDrop (s : String) (n : Nat) : String := ⟨s.data.drop n⟩

/-- Python `s[:-n]` (drop last `n` characters). -/
def pyDropLast (s : String) (n : Nat) : String := ⟨s.data.take (s.data.length - n)⟩

/-- Python `s.rstrip("\n")`. -/
def pyRstripNl (s : String) : String := ⟨(s.data.reverse.dropWhile (· == '\n')).reverse⟩

/-- Split a character list at the first occurrence of `sep`
(Python `s.split(sep, 1)`): returns the part before and, when `sep`
occurs, the part after it. -/
def splitOnceL (sep : Char) : List Char → List Char × Option (List Char)
  | [] => ([], none)
  | c :: cs =>
    if c == sep then ([], some cs)
    else
      let r := splitOnceL sep cs
      (c :: r.1, r.2)

/-- Python `s.split(sep, 1)` on strings. -/
def pySplitOnce (sep : Char) (s : String) : String × Option String :=
  match splitOnceL sep s.data with
  | (a, none) => (⟨a⟩, none)
  | (a, some b) => (⟨a⟩, some ⟨b⟩)

/-- Dict lookup with Python dict-comprehension semantics: when a key occurs
several times in the association list, the last occurrence wins. -/
def pyGet (l : List (String × String)) (k : String) : Option String :=
  (l.reverse.find? (fun p => p.1 == k)).map (·.2)

/-- Decimal digit accumulation over a character list (`none` on a
non-digit). -/
def decDigits (cs : List Char) (acc : Nat) : Option Nat :=
  match cs with
  | [] => some acc
  | c :: rest => if c.isDigit then decDigits rest (acc * 10 + (c.toNat - 48)) else none

/-- Python `int(str)` (raises = `none`): an optional sign followed by at
least one decimal digit. -/
def pyInt (s : String) : Option Int :=
  match s.data with
  | [] => none
  | '-' :: rest =>
    if rest.isEmpty then none else (decDigits rest 0).map (fun n => -(n : Int))
  | cs => (decDigits cs 0).map (fun n => (n : Int))

/-! ### Rounding (`np.round(x, 2)` / `round(x, 2)`, half-even) -/

/-- Round a rational to the nearest integer, ties to even
(Python / NumPy banker's rounding). -/
def roundHalfEven (y : Rat) : Int :=
  if y - ⌊y⌋ = (1 : Rat) / 2 then (if 2 ∣ ⌊y⌋ then ⌊y⌋ else ⌊y⌋ + 1) else round y

/-- `np.round(x, 2)` / `round(x, 2)`: round to 2 decimal places, ties to even. -/
def npRound2 (x : Rat) : Rat := (roundHalfEven (x * 100) : Rat) / 100

/-! ### Key-value config reader (`read_image_config`) -/

/-- The `Immersion_RI` fix-up loop of `read_image_config`: the first line that
starts with `Immersion_RI` is rewritten to `"Immersion_RI," + line[12:]`
(the producer's `config.dat` lacks the `","` after this key); `break` stops
after the first such line. -/
def fixImmersion : List String → List String
  | [] => []
  | l :: ls =>
    if pyStartsWith l "Immersion_RI" then ("Immersion_RI," ++ pyDrop l 12) :: ls
    else l :: fixImmersion ls

/-- `[item.rstrip("\n").split(sep, 1) for item in lines if item != "\n"]`
followed by the dict build `{item[0]: item[1] for item in ...}`; a line
without the delimiter makes `item[1]` raise `IndexError` (`none`). -/
def parseDelimLines (sep : Char) (lines : List String) : Option (List (String × String)) :=
  (lines.filter (fun l => l ≠ "\n")).mapM (fun l =>
    match pySplitOnce sep (pyRstripNl l) with
    | (k, some v) => some (k, v)
    | (_, none) => none)

/-! ### OME metadata record types -/

/-- `ome_types.model.Channel`, restricted to the fields `def_channel` sets.
`id` is patched in later by `transform_tcf` (`channels[0].id = ...`);
we keep the numeric part of `"Channel:{n}"`. -/
structure Channel where
  id : Option Nat := none
  name : String
  acquisitionMode : String
  contrastMethod : String
  illuminationType : String
  lightSourceId : String
  lightSourceWavelength : Option Nat := none
  samplesPerPixel : Nat := 1
  color : Option String := none
  excitationWavelength : Option Nat := none
  emissionWavelength : Option String := none
  fluor : Option String := none
deriving Repr, DecidableEq

/-- `ome_types.model.MapAnnotation`: we keep the numeric part of
`"Annotation:{n}"`, the namespace, description and the key/value pairs. -/
structure Ann where
  id : Nat
  ns : String
  description : String
  values : List (String × String)
deriving Repr, DecidableEq

/-- `ome_types.model.Plane` as built by `def_plane` (exposure is the raw
config string, copied verbatim). -/
structure Plane where
  theC : Nat
  theT : Nat
  theZ : Nat
  positionX : Rat
  positionY : Rat
  positionZ : Rat
  deltaT : Rat
  exposureTime : String
deriving Repr, DecidableEq

/-- `ome_types.model.StageLabel` as built by `def_ht_fl_shift_stagelabel`. -/
structure StageLabel where
  name : String
  z : Rat
  zUnit : String
deriving Repr, DecidableEq

/-- `ome_types.model.Experiment` as built by `def_experiment`; `ome_types`
auto-assigns the id, modelled as the fixed `"Experiment:0"` (one experiment
per folder). -/
structure Experiment where
  id : String
  description : String
  experimenterRefId : String
deriving Repr, DecidableEq

/-! ### Metadata object builders -/

/-- `def_plane(x_coord, y_coord, z_coord, delta_t, thec, thet, thez, exposure)`. -/
def def_plane (x y z : Rat) (dt : Rat) (thec thet thez : Nat) (exposure : String) : Plane :=
  { theC := thec, theT := thet, theZ := thez,
    positionX := x, positionY := y, positionZ := z,
    deltaT := dt, exposureTime := exposure }

/-- `def_ht_fl_shift_stagelabel(offset, fl_height)`:
`z_shift = np.round(offset - fl_height/2, 2)`, unit mm. -/
def def_ht_fl_shift_stagelabel (offset fl_height : Rat) : StageLabel :=
  { name := "Fluorescence Image Z Shift", z := npRound2 (offset - fl_height / 2), zUnit := "mm" }

/-- `def_experiment(desc, exper)` (the `exper` argument is an
`ExperimenterRef`; we record its id). -/
def def_experiment (desc : String) (experimenterRefId : String) : Experiment :=
  { id := "Experiment:0", description := desc, experimenterRefId := experimenterRefId }

/-- The fixed color / excitation wavelength / light source per fluorescence
sub-channel index; an index outside `{0,1,2}` is the logged-then-crashing
branch (`settings` etc. stay unbound). -/
def selChannel (c : Char) : Option (String × Nat × String) :=
  if c = '0' then some ("#0000FFFF", 385, "LightSource:1")
  else if c = '1' then some ("#008000FF", 470, "LightSource:2")
  else if c = '2' then some ("#FF0000FF", 570, "LightSource:3")
  else none

/-- `def_channel(image_name, img_md)`.  For `"ht"`/`"bf"` the channel is a
fixed singleton; otherwise `image_name[2]` picks a fluorescence sub-channel:
the fluorophore keys are looked up (KeyError = `none`), and an index outside
`{0,1,2}` leaves `settings`/`color`/`lambda_exc` unbound (NameError =
`none`). -/
def def_channel (image_name : String) (img_md : List (String × String)) : Option Channel :=
  if image_name = "ht" then
    some { name := "Holotomography", acquisitionMode := "Other", contrastMethod := "Phase",
           illuminationType := "Transmitted", lightSourceId := "LightSource:0",
           lightSourceWavelength := some 532 }
  else if image_name = "bf" then
    some { name := "Brightfield", acquisitionMode := "BrightField", contrastMethod := "Brightfield",
           illuminationType := "Transmitted", lightSourceId := "LightSource:0",
           lightSourceWavelength := some 532 }
  else do
    let c ← image_name.data.get? 2
    let lambdaEmi ← pyGet img_md ("FLCH" ++ c.toString ++ "_Fluorophore_Emission")
    let fluorName ← pyGet img_md ("FLCH" ++ c.toString ++ "_Fluorophore_Name")
    let sel ← selChannel c
    pure { name := "Fluorescence " ++ sel.1, acquisitionMode := "Other",
           contrastMethod := "Fluorescence", illuminationType := "Transmitted",
           lightSourceId := sel.2.2, lightSourceWavelength := some sel.2.1,
           color := some sel.1, excitationWavelength := some sel.2.1,
           emissionWavelength := some lambdaEmi, fluor := some fluorName }

/-! ### Annotations (`def_annotations`) -/

/-- Per-tile information read from `tiling_info.txt` by `read_tiling_info`
(the file, when present, holds exactly these keys; absence of the file is
`Option.none` at the use sites). -/
structure TilingInfo where
  tileImgId : String
  tileTotalImages : Int
  tileNumber : Int
  tileRow : Int
  tileColumn : Int
  tileTotalTimesteps : Int
  tileTimestep : Nat
  tileTimestepSize : Rat
deriving Repr, DecidableEq

/-- The unconditional `"overall"` annotation (`Annotation:0`); each value is a
dict lookup that can raise. -/
def overallAnn (md : List (String × String)) : Option Ann := do
  let mn ← pyGet md "Medium_Name"
  let mri ← pyGet md "Medium_RI"
  let iri ← pyGet md "Immersion_RI"
  let an ← pyGet md "Annotation"
  let sw ← pyGet md "SW Version"
  let jt ← pyGet md "Job_Title"
  pure ⟨0, "overall", "Overall metadata for recording and setup",
    [("MediumName", mn), ("MediumRI", mri), ("ImmersionRI", iri),
     ("Annotation", an), ("TomoStudioVersion", sw), ("ImageJobTitle", jt)]⟩

/-- `"Images HT3D" not in md or int(md["Images HT3D"]) > 0 or
int(md["Images HT2D"]) > 0`, with short-circuiting and raising lookups. -/
def htCond (md : List (String × String)) : Option Bool :=
  match pyGet md "Images HT3D" with
  | none => some true
  | some v =>
    match pyInt v with
    | none => none
    | some n =>
      if n > 0 then some true
      else
        match pyGet md "Images HT2D" with
        | none => none
        | some v2 =>
          match pyInt v2 with
          | none => none
          | some n2 => some (n2 > 0)

/-- The HT annotation (`Annotation:1`). -/
def htAnn (md : List (String × String)) : Option Ann := do
  let ms ← pyGet md "mapping sign"
  let ps ← pyGet md "phase sign"
  let it ← pyGet md "iteration"
  let sh ← pyGet md "Camera Shutter"
  let ga ← pyGet md "Camera Gain"
  pure ⟨1, "holotomography", "Additional metadata for HT and Phase images",
    [("HT_MappingSign", ms), ("HT_PhaseSign", ps), ("HT_Iterations", it),
     ("HT_ExposureTime", sh), ("HT_Gain", ga)]⟩

/-- `"Images BF" in md and int(md["Images BF"]) > 0`. -/
def bfCond (md : List (String × String)) : Option Bool :=
  match pyGet md "Images BF" with
  | none => some false
  | some v =>
    match pyInt v with
    | none => none
    | some n => some (n > 0)

/-- The brightfield annotation (`Annotation:2`). -/
def bfAnn (md : List (String × String)) : Option Ann := do
  let sh ← pyGet md "BF_Camera_Shutter"
  let li ← pyGet md "BF_Light_Intensity"
  pure ⟨2, "brightfield", "Additional metadata for brightfield image",
    [("BF_ExposureTime", sh), ("BF_Intensity", li)]⟩

/-- `"Images FL" not in md or int(md["Images FL3D"]) > 0`. -/
def flCond (md : List (String × String)) : Option Bool :=
  match pyGet md "Images FL" with
  | none => some true
  | some _ =>
    match pyGet md "Images FL3D" with
    | none => none
    | some v =>
      match pyInt v with
      | none => none
      | some n => some (n > 0)

/-- `colors_dict = {0: "blue", 1: "green", 2: "red"}`. -/
def flColor (i : Nat) : String :=
  if i = 0 then "blue" else if i = 1 then "green" else "red"

/-- One iteration of the fluorescence-annotation loop: for sub-channel `i`,
if `md["FLCH{i}_Enable"] == "true"` the annotation `Annotation:{i+3}` is
built (three more raising lookups), else nothing is added; the enable lookup
itself can raise. -/
def flAnnFor (md : List (String × String)) (i : Nat) : Option (List Ann) := do
  let en ← pyGet md ("FLCH" ++ toString i ++ "_Enable")
  if en = "true" then do
    let sh ← pyGet md ("FLCH" ++ toString i ++ "_Camera_Shutter")
    let ga ← pyGet md ("FLCH" ++ toString i ++ "_Camera_Gain")
    let li ← pyGet md ("FLCH" ++ toString i ++ "_Light_Intensity")
    pure [⟨i + 3, "fluorescence",
      "Additional metadata for Fluorescence Channel " ++ flColor i ++ " images",
      [("FL" ++ toString i ++ "_ExposureTime", sh),
       ("FL" ++ toString i ++ "_Gain", ga),
       ("FL" ++ toString i ++ "_Intensity", li)]⟩]
  else pure []

/-- The tiling annotation (`Annotation:6`), added when the tiling dict is
non-empty. -/
def tilingAnn (t : TilingInfo) : Ann :=
  ⟨6, "tiling", "Spatial and temporal tiling information",
    [("Tiling_ClusterID", t.tileImgId),
     ("Tiling_TotalTilesInImage", toString t.tileTotalImages),
     ("Tiling_NumberInImage", toString t.tileNumber),
     ("Tiling_Row", toString t.tileRow),
     ("Tiling_Column", toString t.tileColumn),
     ("Tiling_TotalTimesteps", toString t.tileTotalTimesteps),
     ("Tiling_Timestep", toString t.tileTimestep),
     ("Tiling_Timedelta", toString t.tileTimestepSize)]⟩

/-- The fluorescence-annotation loop `for i in range(3)` as a whole. -/
def flAnnsAll (md : List (String × String)) : Option (List Ann) := do
  let l0 ← flAnnFor md 0
  let l1 ← flAnnFor md 1
  let l2 ← flAnnFor md 2
  pure (l0 ++ l1 ++ l2)

/-- The tiling annotation, appended when `len(tiling_info) > 0`. -/
def tilingPart (tiling : Option TilingInfo) : List Ann :=
  match tiling with
  | some t => [tilingAnn t]
  | none => []

/-- `def_annotations(img_metadata, tiling_info)`: overall annotation, then the
conditional HT / BF / fluorescence ones, then the tiling annotation. -/
def condPart (b : Bool) (x : Option Ann) : Option (List Ann) :=
  if b then x.map (fun a => [a]) else pure []

def flPartOf (md : List (String × String)) (b : Bool) : Option (List Ann) :=
  if b then flAnnsAll md else pure []

def def_annotations (md : List (String × String)) (tiling : Option TilingInfo) :
    Option (List Ann) := do
  let a0 ← overallAnn md
  let hc ← htCond md
  let htPart ← condPart hc (htAnn md)
  let bc ← bfCond md
  let bfPart ← condPart bc (bfAnn md)
  let fc ← flCond md
  let flPart ← flPartOf md fc
  pure (a0 :: (htPart ++ bfPart ++ flPart ++ tilingPart tiling))

/-! ### The TCF container (`h5py` view)

`dat["Data"]` exposes named groups; a group's children are either datasets
(timesteps, for the plain modalities) or sub-groups of datasets (the
fluorescence sub-channels).  A dataset carries its raw array shape and the
`RecordingTime` string attribute of its first entry. -/

/-- One HDF5 dataset: raw array shape plus the `RecordingTime` attribute
(decoded string), which `transform_tcf` reads on the `"000000"` entry. -/
structure Dataset where
  shape : List Nat
  recordingTime : String
deriving Repr, DecidableEq

/-- A child of a modality group: a dataset, or (for `2DFLMIP`/`3DFL`) a
sub-channel group of datasets. -/
inductive Child where
  | ds : Dataset → Child
  | grp : List (String × Dataset) → Child
deriving Repr, DecidableEq

/-- The numeric attributes `build_ome_xml` and `transform_tcf` read from a
group (`data_use.attrs[...]`); every access can raise `KeyError`, so each is
an `Option`. -/
structure Attrs where
  sizeZ : Option Nat := none
  resolutionZ : Option Rat := none
  dataCount : Option Nat := none
  sizeX : Option Nat := none
  sizeY : Option Nat := none
  resolutionX : Option Rat := none
  resolutionY : Option Rat := none
  timeInterval : Option Rat := none
  offsetZ : Option Rat := none
deriving Repr, DecidableEq

/-- One group under `dat["Data"]`. -/
structure DataGroup where
  attrs : Attrs
  children : List (String × Child)
deriving Repr, DecidableEq

/-- The container: the ordered keys of `dat["Data"]` with their groups. -/
structure TCFData where
  data : List (String × DataGroup)
deriving Repr, DecidableEq

/-- `dat["Data"][name]` (group names are unique; first match). -/
def findGroup (d : TCFData) (name : String) : Option DataGroup :=
  (d.data.find? (fun p => p.1 == name)).map (·.2)

/-- Python `"MIP" in item` (substring test). -/
def strContainsMIP (s : String) : Bool :=
  (List.range (s.data.length + 1)).any (fun i => "MIP".data.isPrefixOf (s.data.drop i))

/-- `len(dat["Data"][name])` (number of children), 0 when absent. -/
def groupLen (d : TCFData) (name : String) : Nat :=
  match findGroup d name with
  | some g => g.children.length
  | none => 0

/-- The `keys_to_loop` computation of `transform_tcf`: the group names (MIPs
dropped when `include_mip` is false), with `(n_chans - 1)` extra copies of
`"2DFLMIP"` and `"3DFL"` appended for their nested sub-channels. -/
def keysToLoop (includeMip : Bool) (d : TCFData) : List String :=
  let keys := d.data.map (·.1)
  let keys := if includeMip then keys else keys.filter (fun k => ¬ strContainsMIP k)
  let keys := if "2DFLMIP" ∈ keys then
      keys ++ List.replicate (groupLen d "2DFLMIP" - 1) "2DFLMIP" else keys
  if "3DFL" ∈ keys then keys ++ List.replicate (groupLen d "3DFL" - 1) "3DFL" else keys

/-! ### Folder-level inputs and the run config -/

/-- The files of one acquisition folder, as the pipeline reads them.
`none` means the file is absent (`FileNotFoundError` at `open`); the
position file is the list of parsed floats, the tiling file is `none` when
`read_tiling_info` returned the empty dict. -/
structure FolderFiles where
  name : String
  configDat : Option (List String) := none
  jobParam : Option (List String) := none
  positionTxt : Option (List Rat) := none
  tiling : Option TilingInfo := none
  tcf : Option TCFData := none
deriving Repr

/-- The merged per-run config produced by `read_image_config`:
the string dict from `config.dat` + `JobParameter.tcp` (update semantics:
later file wins), and the four floats of `position.txt`. -/
structure RunConfig where
  kv : List (String × String)
  xRec : Rat
  yRec : Rat
  zRec : Rat
  cRec : Rat
deriving Repr, DecidableEq

/-- `read_image_config(folder)`: read and fix `config.dat`, read
`JobParameter.tcp` (first line discarded), read `position.txt`
(four floats); any missing file or malformed line raises. -/
def read_image_config (f : FolderFiles) : Except String RunConfig :=
  match f.configDat with
  | none => .error "FileNotFoundError: config.dat"
  | some lines1 =>
    match parseDelimLines ',' (fixImmersion lines1) with
    | none => .error "IndexError: config.dat line without delimiter"
    | some kv1 =>
      match f.jobParam with
      | none => .error "FileNotFoundError: JobParameter.tcp"
      | some lines2 =>
        match parseDelimLines '=' (lines2.drop 1) with
        | none => .error "IndexError: JobParameter.tcp line without delimiter"
        | some kv2 =>
          match f.positionTxt with
          | none => .error "FileNotFoundError: position.txt"
          | some pos =>
            match pos.get? 0, pos.get? 1, pos.get? 2, pos.get? 3 with
            | some x, some y, some z, some c =>
              .ok { kv := kv1 ++ kv2, xRec := x, yRec := y, zRec := z, cRec := c }
            | _, _, _, _ => .error "IndexError: position.txt too short"

/-- Metadata from the user's basic config file (`create_overall_config`),
already parsed; only the identifiers the transform uses are kept. -/
structure OverallMd where
  experId : String
  experGroupId : String
  instrId : String
  micModel : String
  detId : String
  objId : String
deriving Repr, DecidableEq

/-- The per-folder metadata dict built by `define_image_metadata`. -/
structure ImgMd where
  exp : Experiment
  micSerial : String
  objNA : String
  objM : String
  channelHt : Channel
  channelBf : Channel
  channelFl0 : Channel
  channelFl1 : Channel
  channelFl2 : Channel
  anns : List Ann
  instrId : String
deriving Repr, DecidableEq

/-- `define_image_metadata(overall_config_dict, img_config_dict, tiling_dict)`:
one experiment from `Job_Title`, the instrument pieces, the five channels and
the annotation set; every raising dict lookup is an `Option` bind. -/
def define_image_metadata (overall : OverallMd) (kv : List (String × String))
    (tiling : Option TilingInfo) : Option ImgMd :=
  match pyGet kv "Job_Title" with
  | none => none
  | some jt =>
    match pyGet kv "Serial", pyGet kv "NA", pyGet kv "M" with
    | some serial, some na, some m =>
      match def_channel "ht" kv, def_channel "bf" kv, def_channel "fl0" kv,
            def_channel "fl1" kv, def_channel "fl2" kv with
      | some cht, some cbf, some c0, some c1, some c2 =>
        match def_annotations kv tiling with
        | none => none
        | some anns =>
          some { exp := def_experiment jt overall.experId,
                 micSerial := serial, objNA := na, objM := m,
                 channelHt := cht, channelBf := cbf,
                 channelFl0 := c0, channelFl1 := c1, channelFl2 := c2,
                 anns := anns, instrId := overall.instrId }
      | _, _, _, _, _ => none
    | _, _, _ => none

/-! ### Per-image assembly (`build_ome_xml` and the modality loop) -/

/-- Errors of one folder's run.  `configRead` is the wrap
`raise Exception("Skipping folder {} with Exception {}")` around
`read_image_config`; `xmlBuild` is the wrap around `build_ome_xml`;
`runtime` is any other uncaught exception of the loop body. -/
inductive TcfError where
  | configRead (folder : String) (msg : String)
  | xmlBuild (msg : String)
  | runtime (msg : String)
deriving Repr, DecidableEq

/-- One output image of the OME document, with the fields `build_ome_xml`
sets.  `srcGroup` records the loop's group name and `fmtShape` the shape of
the `img_formatted` array appended to the parallel `imgs` list. -/
structure OmeImage where
  srcGroup : String
  fmtShape : List Nat
  channels : List Channel
  sizeC : Nat
  sizeT : Nat
  sizeZ : Nat
  sizeX : Nat
  sizeY : Nat
  physicalSizeX : Rat
  physicalSizeY : Rat
  physicalSizeZ : Option Rat
  timeIncrement : Rat
  planeCount : Nat
  ifd : Nat
  description : String
  dataType : String
  acquisitionDate : String
  experimentRefId : String
  experimenterRefId : String
  instrumentRefId : String
  annotationRefs : List Nat
  stageLabel : Option StageLabel
  planes : List Plane
deriving Repr, DecidableEq

/-- The `len_z` of `build_ome_xml`'s `SizeZ`/`ResolutionZ` try-block: a
`KeyError` from either read lands in the `except` that resets `len_z` to 1,
so `SizeZ` is only used when `ResolutionZ` is also present. -/
def zLen (a : Attrs) : Nat :=
  match a.sizeZ, a.resolutionZ with
  | some z, some _ => z
  | _, _ => 1

/-- The `physical_size_z` of the same try-block. -/
def physZ (a : Attrs) : Option Rat :=
  match a.sizeZ, a.resolutionZ with
  | some _, some rz => some (npRound2 rz)
  | _, _ => none

/-- `build_ome_xml(data_use, offset, channels, ...)`: plane count
`len_z * len_t * len_c` with `len_z`/`physical_size_z` from the
`SizeZ`/`ResolutionZ` try-block, `len_t = DataCount`, `len_c = 1`; returns
the image and `offset + n_planes`. -/
def build_ome_xml (attrs : Attrs) (offset : Nat) (channels : List Channel)
    (timestamp description expId experimenterId instrId : String)
    (stagelabel : Option StageLabel) (dataType : String) (annRefs : List Nat)
    (planes : List Plane) (srcGroup : String) (fmtShape : List Nat) :
    Except String (OmeImage × Nat) :=
  match attrs.dataCount with
  | none => .error "KeyError: DataCount"
  | some lenT =>
    let lenC : Nat := 1
    let nPlanes := zLen attrs * lenT * lenC
    match attrs.sizeX, attrs.sizeY, attrs.resolutionX, attrs.resolutionY, attrs.timeInterval with
    | some sx, some sy, some rx, some ry, some ti =>
      .ok ({ srcGroup := srcGroup, fmtShape := fmtShape, channels := channels,
             sizeC := lenC, sizeT := lenT, sizeZ := zLen attrs, sizeX := sx, sizeY := sy,
             physicalSizeX := npRound2 rx, physicalSizeY := npRound2 ry,
             physicalSizeZ := physZ attrs, timeIncrement := ti,
             planeCount := nPlanes, ifd := offset,
             description := description, dataType := dataType,
             acquisitionDate := timestamp, experimentRefId := expId,
             experimenterRefId := experimenterId, instrumentRefId := instrId,
             annotationRefs := annRefs, stageLabel := stagelabel,
             planes := planes }, offset + nPlanes)
    | _, _, _, _, _ => .error "KeyError: pixel attrs"

/-- The loop state of `transform_tcf`: the two fluorescence sub-channel
counters, the running `plane_offset` and the images emitted so far. -/
structure LoopState where
  flMip : Nat
  fl3d : Nat
  offset : Nat
  images : List OmeImage
deriving Repr, DecidableEq

/-- What one recognized branch of the modality dispatch computes before the
common plane/XML tail. -/
structure BranchOut where
  channelBase : Channel
  description : String
  dataType : String
  fmtShape : List Nat
  annRef : Nat
  timestampRaw : String
  exposure : String
  stageLabel : Option StageLabel
  flMipNext : Nat
  fl3dNext : Nat
deriving Repr, DecidableEq

/-- All children of a group as datasets (the plain-modality comprehensions
`data_use[item][()]` fail on a sub-group). -/
def plainItems (g : DataGroup) : Except TcfError (List (String × Dataset)) :=
  match g.children.mapM (fun p => match p.2 with
      | Child.ds d => some (p.1, d)
      | Child.grp _ => none) with
  | some items => .ok items
  | none => .error (.runtime "child is a group, not a dataset")

/-- The common shape of the stacked per-timestep arrays (`np.array([...])`
needs equal shapes; an empty group fails at the `"000000"` timestamp
lookup either way). -/
def itemsShape (items : List (String × Dataset)) : Except TcfError (List Nat) :=
  match items with
  | [] => .error (.runtime "empty data group")
  | x :: xs =>
    if xs.all (fun y => y.2.shape == x.2.shape) then .ok x.2.shape
    else .error (.runtime "ragged data group")

/-- `data_use["000000"].attrs["RecordingTime"][0].decode("utf-8")`. -/
def recTime (items : List (String × Dataset)) : Except TcfError String :=
  match items.find? (fun p => p.1 == "000000") with
  | some p => .ok p.2.recordingTime
  | none => .error (.runtime "KeyError: 000000")

/-- A raising lookup in the per-run config dict. -/
def cfgGetE (cfg : RunConfig) (k : String) : Except TcfError String :=
  match pyGet cfg.kv k with
  | some v => .ok v
  | none => .error (.runtime ("KeyError: " ++ k))

/-- `ome_img_md["channel_fl{}".format(channel[2])]`: a sub-channel name whose
third character is not `0`/`1`/`2` raises `KeyError`. -/
def flChannelOf (md : ImgMd) (c : Char) : Option Channel :=
  if c = '0' then some md.channelFl0
  else if c = '1' then some md.channelFl1
  else if c = '2' then some md.channelFl2
  else none

/-- `int(channel[2])` for a guarded digit character. -/
def charDigit (c : Char) : Nat := c.toNat - 48

/-- The group names the modality dispatch of `transform_tcf` recognizes;
any other name hits the `else: continue` branch. -/
def recognizedNames : List String := ["2DMIP", "2D", "BF", "3D", "2DFLMIP", "3DFL"]

/-- An indexing/lookup step that raises when the value is absent. -/
def getOrErr {α : Type} (o : Option α) (msg : String) : Except TcfError α :=
  match o with
  | some a => .ok a
  | none => .error (.runtime msg)

/-- `data_use[item][0]` in the `"BF"` branch: each stacked item drops its
first axis; a 0-d item or an empty first axis raises `IndexError`. -/
def bfItemShape (s : List Nat) : Except TcfError (List Nat) :=
  match s with
  | [] => .error (.runtime "IndexError: BF item is 0-d")
  | d0 :: srest =>
    if d0 = 0 then .error (.runtime "IndexError: BF item first axis empty")
    else .ok srest

/-- `data_use[channel]` in the fluorescence branches must be a sub-group. -/
def subOf (c : Child) (modality : String) : Except TcfError (List (String × Dataset)) :=
  match c with
  | Child.ds _ => .error (.runtime (modality ++ " child is a dataset"))
  | Child.grp sub => .ok sub

/-- The `"2DMIP"` branch of the modality dispatch. -/
def branchHtMip (cfg : RunConfig) (md : ImgMd) (st : LoopState) (g : DataGroup) :
    Except TcfError BranchOut := do
  let items ← plainItems g
  let s ← itemsShape items
  let ts ← recTime items
  let exposure ← cfgGetE cfg "Camera Shutter"
  pure ⟨md.channelHt, "2D Holotomography Maximum Intensity Projection",
        "uint16", 1 :: items.length :: 1 :: s, 1, ts, exposure, none,
        st.flMip, st.fl3d⟩

/-- The `"2D"` (phase map) branch. -/
def branchHt2D (cfg : RunConfig) (md : ImgMd) (st : LoopState) (g : DataGroup) :
    Except TcfError BranchOut := do
  let items ← plainItems g
  let s ← itemsShape items
  let ts ← recTime items
  let exposure ← cfgGetE cfg "Camera Shutter"
  pure ⟨md.channelHt, "2D Phasemap", "float", 1 :: items.length :: s,
        1, ts, exposure, none, st.flMip, st.fl3d⟩

/-- The `"BF"` branch (`data_use[item][0]` drops each item's first axis). -/
def branchBf (cfg : RunConfig) (md : ImgMd) (st : LoopState) (g : DataGroup) :
    Except TcfError BranchOut := do
  let items ← plainItems g
  let s ← itemsShape items
  let srest ← bfItemShape s
  let ts ← recTime items
  let exposure ← cfgGetE cfg "BF_Camera_Shutter"
  pure ⟨md.channelBf, "2D Brightfield", "uint8",
        1 :: items.length :: srest, 2, ts, exposure, none,
        st.flMip, st.fl3d⟩

/-- The `"3D"` branch. -/
def branchHt3D (cfg : RunConfig) (md : ImgMd) (st : LoopState) (g : DataGroup) :
    Except TcfError BranchOut := do
  let items ← plainItems g
  let s ← itemsShape items
  let ts ← recTime items
  let exposure ← cfgGetE cfg "Camera Shutter"
  pure ⟨md.channelHt, "3D Holotomography", "uint16",
        1 :: items.length :: s, 1, ts, exposure, none, st.flMip, st.fl3d⟩

/-- The `"2DFLMIP"` branch: the sub-channel is `list(data_use.keys())` at the
`fl_mip_counter`, which the branch bumps. -/
def branchFlMip (cfg : RunConfig) (md : ImgMd) (st : LoopState) (g : DataGroup) :
    Except TcfError BranchOut := do
  let chEntry ← getOrErr (g.children.get? st.flMip) "IndexError: fl_mip_counter"
  let sub ← subOf chEntry.2 "2DFLMIP"
  let c ← getOrErr (chEntry.1.data.get? 2) "IndexError: channel name too short"
  let base ← getOrErr (flChannelOf md c) "KeyError: channel_fl"
  let s ← itemsShape sub
  let ts ← recTime sub
  let exposure ← cfgGetE cfg ("FLCH" ++ c.toString ++ "_Camera_Shutter")
  pure ⟨base, "2D " ++ base.name ++ " Maximum Intensity Projection",
        "uint16", 1 :: sub.length :: 1 :: s, 3 + charDigit c,
        ts, exposure, none, st.flMip + 1, st.fl3d⟩

/-- The `"3DFL"` branch: like `branchFlMip` with the `fl_3d_counter`, and the
stage label from the `3DFL` group's `OffsetZ`/`ResolutionZ`/`SizeZ`. -/
def branchFl3D (cfg : RunConfig) (md : ImgMd) (dat : TCFData) (st : LoopState)
    (g : DataGroup) : Except TcfError BranchOut := do
  let chEntry ← getOrErr (g.children.get? st.fl3d) "IndexError: fl_3d_counter"
  let sub ← subOf chEntry.2 "3DFL"
  let c ← getOrErr (chEntry.1.data.get? 2) "IndexError: channel name too short"
  let base ← getOrErr (flChannelOf md c) "KeyError: channel_fl"
  let s ← itemsShape sub
  let ts ← recTime sub
  let flg ← getOrErr (findGroup dat "3DFL") "KeyError: 3DFL"
  let oz ← getOrErr flg.attrs.offsetZ "KeyError: OffsetZ"
  let rz ← getOrErr flg.attrs.resolutionZ "KeyError: ResolutionZ"
  let sz ← getOrErr flg.attrs.sizeZ "KeyError: SizeZ"
  let exposure ← cfgGetE cfg ("FLCH" ++ c.toString ++ "_Camera_Shutter")
  pure ⟨base, "3D " ++ base.name, "uint16",
        1 :: sub.length :: s, 3 + charDigit c, ts, exposure,
        some (def_ht_fl_shift_stagelabel oz (rz * (sz : Rat))),
        st.flMip, st.fl3d + 1⟩

/-- The modality dispatch of `transform_tcf` for one `name`: `.ok none` is
the `continue` of the unknown-name branch, otherwise the branch data. -/
def branchFor (cfg : RunConfig) (md : ImgMd) (dat : TCFData) (st : LoopState)
    (g : DataGroup) (name : String) : Except TcfError (Option BranchOut) :=
  if name = "2DMIP" then (branchHtMip cfg md st g).map some
  else if name = "2D" then (branchHt2D cfg md st g).map some
  else if name = "BF" then (branchBf cfg md st g).map some
  else if name = "3D" then (branchHt3D cfg md st g).map some
  else if name = "2DFLMIP" then (branchFlMip cfg md st g).map some
  else if name = "3DFL" then (branchFl3D cfg md dat st g).map some
  else .ok none

/-- The plane construction of `transform_tcf`: with tiling metadata, one
plane per `range(img_formatted.shape[2])` with
`delta_t = tile_timestep * tile_timestep_size` and annotation refs
`[0, ann_ref, 6]`; without it (the `KeyError` fallback), one plane per
`np.ndindex(img_formatted.shape[1:3])` with
`delta_t = j_time * TimeInterval` and refs `[0, ann_ref]`.  A shape with
fewer than 3 axes raises `IndexError` (not caught by the `except KeyError`). -/
def mkPlanes (cfg : RunConfig) (tiling : Option TilingInfo) (attrs : Attrs)
    (ic : Nat) (fmtShape : List Nat) (exposure : String) (annRef : Nat) :
    Except TcfError (List Plane × List Nat) :=
  match tiling with
  | some t =>
    match fmtShape.get? 2 with
    | none => .error (.runtime "IndexError: shape[2]")
    | some s2 =>
      .ok ((List.range s2).map (fun k =>
              def_plane cfg.xRec cfg.yRec cfg.zRec
                ((t.tileTimestep : Rat) * t.tileTimestepSize) ic t.tileTimestep k exposure),
            [0, annRef, 6])
  | none =>
    match fmtShape.get? 1, fmtShape.get? 2 with
    | some s1, some s2 =>
      match attrs.timeInterval with
      | none => .error (.runtime "KeyError: TimeInterval")
      | some ti =>
        .ok (((List.range s1).map (fun (j : Nat) =>
                (List.range s2).map (fun (k : Nat) =>
                  def_plane cfg.xRec cfg.yRec cfg.zRec ((j : Rat) * ti) ic j k exposure))).flatten,
              [0, annRef])
    | _, _ => .error (.runtime "IndexError: shape[1:3]")

/-- The common tail of one loop iteration: patch the channel id with the
enumerate index `i_chan`, build the planes, call `build_ome_xml` (whose
failure is wrapped), and extend the state. -/
def emitImage (overall : OverallMd) (cfg : RunConfig) (md : ImgMd)
    (tiling : Option TilingInfo) (st : LoopState) (ic : Nat) (name : String)
    (g : DataGroup) (b : BranchOut) : Except TcfError LoopState := do
  let ch := { b.channelBase with id := some ic }
  let pa ← mkPlanes cfg tiling g.attrs ic b.fmtShape b.exposure b.annRef
  match build_ome_xml g.attrs st.offset [ch] (pyDropLast b.timestampRaw 4)
      b.description md.exp.id overall.experId md.instrId b.stageLabel
      b.dataType pa.2 pa.1 name b.fmtShape with
  | .error e => .error (.xmlBuild e)
  | .ok (img, offNext) =>
    pure { flMip := b.flMipNext, fl3d := b.fl3dNext, offset := offNext,
           images := st.images ++ [img] }

/-- One iteration of `for i_chan, name in enumerate(keys_to_loop)`. -/
def processName (overall : OverallMd) (cfg : RunConfig) (md : ImgMd)
    (tiling : Option TilingInfo) (dat : TCFData) (st : LoopState) (ic : Nat)
    (name : String) : Except TcfError LoopState :=
  match findGroup dat name with
  | none => .error (.runtime "KeyError: Data group")
  | some g =>
    match branchFor cfg md dat st g name with
    | .error e => .error e
    | .ok none => .ok st
    | .ok (some b) => emitImage overall cfg md tiling st ic name g b

/-- The modality loop with its running enumerate index. -/
def runLoop (overall : OverallMd) (cfg : RunConfig) (md : ImgMd)
    (tiling : Option TilingInfo) (dat : TCFData) :
    LoopState → Nat → List String → Except TcfError LoopState
  | st, _, [] => .ok st
  | st, ic, name :: rest =>
    match processName overall cfg md tiling dat st ic name with
    | .error e => .error e
    | .ok st2 => runLoop overall cfg md tiling dat st2 (ic + 1) rest

/-- The final `model.OME(...)` document.  `finalPlaneOffset` records the
last value of the running `plane_offset` variable. -/
structure OMEDoc where
  creator : String
  images : List OmeImage
  experiments : List Experiment
  experimenterIds : List String
  experimenterGroupIds : List String
  instrumentIds : List String
  annotations : List Ann
  finalPlaneOffset : Nat
deriving Repr, DecidableEq

/-- `transform_tcf(folder, overall_md, ...)`: read the per-run configs
(failure wrapped as the skip exception), the tiling info, build the folder
metadata, open the TCF container and run the modality loop, then assemble
the OME document.  The timestamp `strptime` and the actual TIFF writing are
external collaborators and not modelled. -/
def transform_tcf (overall : OverallMd) (f : FolderFiles) (includeMip : Bool) :
    Except TcfError OMEDoc :=
  match read_image_config f with
  | .error e => .error (.configRead f.name e)
  | .ok cfg =>
    match define_image_metadata overall cfg.kv f.tiling with
    | none => .error (.runtime "KeyError while building image metadata")
    | some md =>
      match f.tcf with
      | none => .error (.runtime "unable to open TCF file")
      | some dat =>
        match runLoop overall cfg md f.tiling dat ⟨0, 0, 0, []⟩ 0 (keysToLoop includeMip dat) with
        | .error e => .error e
        | .ok st =>
          .ok { creator := "tcf_to_ometiff by Henning Zwirnmann",
                images := st.images,
                experiments := [md.exp],
                experimenterIds := [overall.experId],
                experimenterGroupIds := [overall.experGroupId],
                instrumentIds := [md.instrId],
                annotations := md.anns,
                finalPlaneOffset := st.offset }

/-- `transform_folder(top_folder, ...)`: process every sub-folder, catching
any per-folder exception (logged, processing continues); the per-folder
outcome is `none` for a caught failure. -/
def transform_folder (overall : OverallMd) (folders : List FolderFiles)
    (includeMip : Bool) : List (String × Option OMEDoc) :=
  folders.map (fun f => (f.name, (transform_tcf overall f includeMip).toOption))

/-! ### Concrete acquisition folders used as evaluation witnesses -/

/-- A basic user config (already parsed by `create_overall_config`). -/
def wOverall : OverallMd :=
  { experId := "Experimenter:0", experGroupId := "ExperimenterGroup:0",
    instrId := "Instrument:0", micModel := "HT-2H", detId := "Detector:0",
    objId := "Objective:0" }

/-- A `config.dat` with the producer's malformed `Immersion_RI` line and all
keys the builders read. -/
def wConfigLines : List String :=
  ["Medium_Name,Water\n",
   "Medium_RI,1.333\n",
   "Immersion_RI1.337\n",
   "Annotation,none\n",
   "SW Version,3.3.9\n",
   "mapping sign,-1\n",
   "phase sign,1\n",
   "iteration,50\n",
   "Camera Shutter,30\n",
   "Camera Gain,10\n",
   "Serial,SN123\n",
   "NA,1.2\n",
   "M,40\n",
   "FLCH0_Enable,false\n",
   "FLCH1_Enable,false\n",
   "FLCH2_Enable,false\n",
   "FLCH0_Fluorophore_Emission,520\n",
   "FLCH0_Fluorophore_Name,GFP\n",
   "FLCH0_Camera_Shutter,150\n",
   "FLCH1_Fluorophore_Emission,600\n",
   "FLCH1_Fluorophore_Name,RFP\n",
   "FLCH1_Camera_Shutter,150\n",
   "FLCH2_Fluorophore_Emission,650\n",
   "FLCH2_Fluorophore_Name,Cy5\n",
   "FLCH2_Camera_Shutter,150\n"]

/-- A `JobParameter.tcp` (first line is the discarded header). -/
def wJobLines : List String := ["[JobParameter]\n", "Job_Title=TestJob\n"]

/-- A `position.txt` (x, y, z, c). -/
def wPosition : List Rat := [1/2, 3/2, 5/2, 0]

/-- Attributes shared by the sample groups. -/
def wAttrs3D : Attrs :=
  { sizeZ := some 10, resolutionZ := some (39/200), dataCount := some 1,
    sizeX := some 4, sizeY := some 4, resolutionX := some (31/200),
    resolutionY := some (31/200), timeInterval := some 1 }

def wAttrs2D : Attrs :=
  { sizeZ := none, resolutionZ := none, dataCount := some 1,
    sizeX := some 4, sizeY := some 4, resolutionX := some (31/200),
    resolutionY := some (31/200), timeInterval := some 1 }

/-- The §8 end-to-end container: groups `3D` (SizeZ = 10, DataCount = 1) and
`2DMIP` (no SizeZ). -/
def wTcf : TCFData :=
  { data :=
      [("3D", { attrs := wAttrs3D,
                children := [("000000", Child.ds ⟨[10, 4, 4], "2024-01-02 03:04:05.678"⟩)] }),
       ("2DMIP", { attrs := wAttrs2D,
                   children := [("000000", Child.ds ⟨[4, 4], "2024-01-02 03:04:05.678"⟩)] })] }

/-- A complete, well-formed acquisition folder with no tiling file. -/
def wFolder : FolderFiles :=
  { name := "20240102.120000.001.A1", configDat := some wConfigLines,
    jobParam := some wJobLines, positionTxt := some wPosition,
    tiling := none, tcf := some wTcf }

/-- The tiling metadata of a tiled acquisition. -/
def wTiling : TilingInfo :=
  { tileImgId := "C0", tileTotalImages := 4, tileNumber := 1, tileRow := 0,
    tileColumn := 1, tileTotalTimesteps := 3, tileTimestep := 2,
    tileTimestepSize := 7/2 }

/-- A container whose `3D` group has two timesteps (`DataCount = 2`). -/
def wTcfT2 : TCFData :=
  { data :=
      [("3D", { attrs := { wAttrs3D with sizeZ := some 5, dataCount := some 2 },
                children := [("000000", Child.ds ⟨[5, 4, 4], "2024-01-02 03:04:05.678"⟩),
                             ("000001", Child.ds ⟨[5, 4, 4], "2024-01-02 03:04:06.678"⟩)] })] }

/-- The same folder as `wFolder` but tiled and with two timesteps. -/
def wFolderTile : FolderFiles :=
  { wFolder with tiling := some wTiling, tcf := some wTcfT2 }

/-- A container with an unrecognized group name between two recognized ones. -/
def wTcfGap : TCFData :=
  { data :=
      [("3D", { attrs := wAttrs3D,
                children := [("000000", Child.ds ⟨[10, 4, 4], "2024-01-02 03:04:05.678"⟩)] }),
       ("FooBar", { attrs := {}, children := [] }),
       ("2DMIP", { attrs := wAttrs2D,
                   children := [("000000", Child.ds ⟨[4, 4], "2024-01-02 03:04:05.678"⟩)] })] }

/-- `wFolder` with the unknown-group container. -/
def wFolderGap : FolderFiles := { wFolder with tcf := some wTcfGap }

/-- Attributes with `SizeZ` present but `ResolutionZ` absent. -/
def wAttrsNoRz : Attrs :=
  { wAttrs3D with sizeZ := some 10, resolutionZ := none, dataCount := some 2 }

/-- A container whose `3D` group declares `SizeZ` but lacks `ResolutionZ`. -/
def wTcfNoRz : TCFData :=
  { data :=
      [("3D", { attrs := wAttrsNoRz,
                children := [("000000", Child.ds ⟨[10, 4, 4], "2024-01-02 03:04:05.678"⟩),
                             ("000001", Child.ds ⟨[10, 4, 4], "2024-01-02 03:04:06.678"⟩)] })] }

/-- `wFolder` with the `ResolutionZ`-less container. -/
def wFolderNoRz : FolderFiles := { wFolder with tcf := some wTcfNoRz }

/-- The `3DFL` group of the fluorescence sample container. -/
def wFlGroup : DataGroup :=
  { attrs := { sizeZ := some 5, resolutionZ := some (39/200),
               dataCount := some 1, sizeX := some 4, sizeY := some 4,
               resolutionX := some (31/200), resolutionY := some (31/200),
               timeInterval := some 1, offsetZ := some (3/4) },
    children := [("CH0", Child.grp
      [("000000", ⟨[5, 4, 4], "2024-01-02 03:04:05.678"⟩)])] }

/-- A container with one `3DFL` fluorescence sub-channel. -/
def wTcfFl : TCFData := { data := [("3DFL", wFlGroup)] }

/-- `wFolder` with the fluorescence container. -/
def wFolderFl : FolderFiles := { wFolder with tcf := some wTcfFl }

/-- A folder whose `config.dat` is missing. -/
def wFolderNoCfg : FolderFiles :=
  { name := "20240102.120000.002.A1", configDat := none,
    jobParam := some wJobLines, positionTxt := some wPosition,
    tiling := none, tcf := some wTcf }

/-! ### Fallback records and evaluated documents for the witnesses -/

def noDoc : OMEDoc :=
  { creator := "", images := [], experiments := [], experimenterIds := [],
    experimenterGroupIds := [], instrumentIds := [], annotations := [],
    finalPlaneOffset := 0 }

def noImage : OmeImage :=
  { srcGroup := "", fmtShape := [], channels := [], sizeC := 0, sizeT := 0,
    sizeZ := 0, sizeX := 0, sizeY := 0, physicalSizeX := 0, physicalSizeY := 0,
    physicalSizeZ := none, timeIncrement := 0, planeCount := 0, ifd := 0,
    description := "", dataType := "", acquisitionDate := "",
    experimentRefId := "", experimenterRefId := "", instrumentRefId := "",
    annotationRefs := [], stageLabel := none, planes := [] }

def noPlane : Plane :=
  { theC := 0, theT := 0, theZ := 0, positionX := 0, positionY := 0,
    positionZ := 0, deltaT := 0, exposureTime := "" }

/-- The document produced from the plain sample folder. -/
def wDoc : OMEDoc := (transform_tcf wOverall wFolder true).toOption.getD noDoc

/-- The document produced from the tiled sample folder. -/
def wDocTile : OMEDoc := (transform_tcf wOverall wFolderTile true).toOption.getD noDoc

/-- The document produced from the fluorescence sample folder. -/
def wDocFl : OMEDoc := (transform_tcf wOverall wFolderFl true).toOption.getD noDoc

/-! ### Characterization of the modality loop -/

/-- The channel id of an image with a single id-bearing channel. -/
def chanId? (i : OmeImage) : Option Nat :=
  match i.channels.map (·.id) with
  | [some j] => some j
  | _ => none

/-- The channel ids of a list of images, in order. -/
def chanIds (l : List OmeImage) : List Nat := l.filterMap chanId?

/-- The running-offset chain: starting from `o`, each image's `ifd` equals the
offset so far and the offset advances by its plane count, ending at `o'`. -/
def chainFrom : Nat → List OmeImage → Nat → Prop
  | o, [], o' => o' = o
  | o, img :: rest, o' => img.ifd = o ∧ chainFrom (o + img.planeCount) rest o'

/-- Each image has a defined channel id, the ids are at least `n` and
strictly increase along the list. -/
def idsFrom : Nat → List OmeImage → Prop
  | _, [] => True
  | n, img :: rest => ∃ j, chanId? img = some j ∧ n ≤ j ∧ idsFrom (j + 1) rest

/-- Everything the loop guarantees about one emitted image. -/
structure ImgProps (md : ImgMd) (tiling : Option TilingInfo) (dat : TCFData)
    (img : OmeImage) : Prop where
  sizeC_eq : img.sizeC = 1
  channels_len : img.channels.length = 1
  planeCount_eq : img.planeCount = img.sizeZ * img.sizeT * img.sizeC
  expRef : img.experimentRefId = md.exp.id
  attrsLink : ∃ g, findGroup dat img.srcGroup = some g ∧
    g.attrs.dataCount = some img.sizeT ∧
    g.attrs.timeInterval = some img.timeIncrement ∧
    img.sizeZ = zLen g.attrs
  stageNone : img.srcGroup ≠ "3DFL" → img.stageLabel = none
  stageFl : img.srcGroup = "3DFL" →
    ∃ flg oz rz sz, findGroup dat "3DFL" = some flg ∧
      flg.attrs.offsetZ = some oz ∧ flg.attrs.resolutionZ = some rz ∧
      flg.attrs.sizeZ = some sz ∧
      img.stageLabel = some (def_ht_fl_shift_stagelabel oz (rz * (sz : Rat)))
  planesNoTiling : tiling = none →
    ∃ s1 s2, img.fmtShape.get? 1 = some s1 ∧ img.fmtShape.get? 2 = some s2 ∧
      img.planes.length = s1 * s2 ∧
      ∀ p ∈ img.planes, p.deltaT = (p.theT : Rat) * img.timeIncrement
  planesTiling : ∀ t, tiling = some t →
    ∃ s2, img.fmtShape.get? 2 = some s2 ∧ img.planes.length = s2 ∧
      ∀ p ∈ img.planes, p.deltaT = (t.tileTimestep : Rat) * t.tileTimestepSize ∧
        p.theT = t.tileTimestep

theorem build_ome_xml_ok {attrs : Attrs} {offset : Nat} {channels : List Channel}
    {ts desc expId exId inId : String} {sl : Option StageLabel} {dt : String}
    {annRefs : List Nat} {planes : List Plane} {src : String} {shape : List Nat}
    {img : OmeImage} {off' : Nat}
    (h : build_ome_xml attrs offset channels ts desc expId exId inId sl dt
          annRefs planes src shape = .ok (img, off')) :
    img.ifd = offset ∧ off' = offset + img.planeCount ∧ img.sizeC = 1 ∧
    img.planeCount = img.sizeZ * img.sizeT * img.sizeC ∧
    attrs.dataCount = some img.sizeT ∧ attrs.timeInterval = some img.timeIncrement ∧
    img.sizeZ = zLen attrs ∧ img.channels = channels ∧ img.planes = planes ∧
    img.experimentRefId = expId ∧ img.stageLabel = sl ∧ img.srcGroup = src ∧
    img.fmtShape = shape := by
  unfold build_ome_xml at h
  split at h
  · simp at h
  next lenT hdc =>
    split at h
    next sx sy rx ry ti hx hy hrx hry hti =>
      simp only [Except.ok.injEq, Prod.mk.injEq] at h
      obtain ⟨h1, h2⟩ := h
      subst h1
      subst h2
      refine ⟨rfl, rfl, rfl, rfl, hdc, hti, rfl, rfl, rfl, rfl, rfl, rfl, rfl⟩
    next h5 =>
      simp at h

theorem mkPlanes_ok {cfg : RunConfig} {tiling : Option TilingInfo} {attrs : Attrs}
    {ic : Nat} {shape : List Nat} {exposure : String} {annRef : Nat}
    {planes : List Plane} {annRefs : List Nat}
    (h : mkPlanes cfg tiling attrs ic shape exposure annRef = .ok (planes, annRefs)) :
    (tiling = none →
      ∃ s1 s2 ti, shape.get? 1 = some s1 ∧ shape.get? 2 = some s2 ∧
        attrs.timeInterval = some ti ∧ planes.length = s1 * s2 ∧
        ∀ p ∈ planes, p.deltaT = (p.theT : Rat) * ti) ∧
    (∀ t, tiling = some t →
      ∃ s2, shape.get? 2 = some s2 ∧ planes.length = s2 ∧
        ∀ p ∈ planes, p.deltaT = (t.tileTimestep : Rat) * t.tileTimestepSize ∧
          p.theT = t.tileTimestep) := by
  cases tiling with
  | some t =>
    refine ⟨by intro hn; simp at hn, ?_⟩
    intro t' ht'
    obtain rfl : t = t' := by injection ht'
    simp only [mkPlanes] at h
    rcases hs2 : shape.get? 2 with _ | s2
    · simp only [hs2] at h
      exact Except.noConfusion h
    · simp only [hs2, Except.ok.injEq, Prod.mk.injEq] at h
      obtain ⟨h1, _⟩ := h
      subst h1
      refine ⟨s2, rfl, by simp, ?_⟩
      intro p hp
      simp only [List.mem_map] at hp
      obtain ⟨k, _, rfl⟩ := hp
      exact ⟨rfl, rfl⟩
  | none =>
    refine ⟨?_, by intro t' ht'; simp at ht'⟩
    intro _
    simp only [mkPlanes] at h
    rcases hs1 : shape.get? 1 with _ | s1
    · simp only [hs1] at h
      exact Except.noConfusion h
    rcases hs2 : shape.get? 2 with _ | s2
    · simp only [hs1, hs2] at h
      exact Except.noConfusion h
    simp only [hs1, hs2] at h
    rcases hti : attrs.timeInterval with _ | ti
    · simp only [hti] at h
      exact Except.noConfusion h
    simp only [hti, Except.ok.injEq, Prod.mk.injEq] at h
    obtain ⟨h1, _⟩ := h
    subst h1
    refine ⟨s1, s2, ti, rfl, rfl, rfl, ?_, ?_⟩
    · simp [List.length_flatten, List.map_map, Function.comp_def, List.map_const',
        List.sum_replicate, smul_eq_mul]
    · intro p hp
      simp only [List.mem_flatten, List.mem_map] at hp
      obtain ⟨l, ⟨j, _, rfl⟩, hpl⟩ := hp
      simp only [List.mem_map] at hpl
      obtain ⟨k, _, rfl⟩ := hpl
      rfl

theorem map_some_ne_ok_none {ε α : Type} {e : Except ε α}
    (h : e.map some = Except.ok none) : False := by
  cases e <;> simp [Except.map] at h

theorem except_bind_ok {ε α β : Type} {x : Except ε α} {f : α → Except ε β} {b : β}
    (h : x >>= f = .ok b) : ∃ a, x = .ok a ∧ f a = .ok b := by
  cases x with
  | error e => exact Except.noConfusion h
  | ok a => exact ⟨a, rfl, h⟩

theorem except_pure_ok {ε α : Type} {a b : α}
    (h : (pure a : Except ε α) = .ok b) : a = b := by
  injection h

theorem getOrErr_ok {α : Type} {o : Option α} {msg : String} {a : α}
    (h : getOrErr o msg = .ok a) : o = some a := by
  cases o with
  | none => exact Except.noConfusion h
  | some x => cases h; rfl

theorem branchHtMip_stage {cfg : RunConfig} {md : ImgMd} {st : LoopState}
    {g : DataGroup} {b : BranchOut} (h : branchHtMip cfg md st g = .ok b) :
    b.stageLabel = none := by
  unfold branchHtMip at h
  obtain ⟨items, _, h⟩ := except_bind_ok h
  obtain ⟨s, _, h⟩ := except_bind_ok h
  obtain ⟨ts, _, h⟩ := except_bind_ok h
  obtain ⟨ex, _, h⟩ := except_bind_ok h
  obtain rfl := except_pure_ok h
  rfl

theorem branchHt2D_stage {cfg : RunConfig} {md : ImgMd} {st : LoopState}
    {g : DataGroup} {b : BranchOut} (h : branchHt2D cfg md st g = .ok b) :
    b.stageLabel = none := by
  unfold branchHt2D at h
  obtain ⟨items, _, h⟩ := except_bind_ok h
  obtain ⟨s, _, h⟩ := except_bind_ok h
  obtain ⟨ts, _, h⟩ := except_bind_ok h
  obtain ⟨ex, _, h⟩ := except_bind_ok h
  obtain rfl := except_pure_ok h
  rfl

theorem branchBf_stage {cfg : RunConfig} {md : ImgMd} {st : LoopState}
    {g : DataGroup} {b : BranchOut} (h : branchBf cfg md st g = .ok b) :
    b.stageLabel = none := by
  unfold branchBf at h
  obtain ⟨items, _, h⟩ := except_bind_ok h
  obtain ⟨s, _, h⟩ := except_bind_ok h
  obtain ⟨srest, _, h⟩ := except_bind_ok h
  obtain ⟨ts, _, h⟩ := except_bind_ok h
  obtain ⟨ex, _, h⟩ := except_bind_ok h
  obtain rfl := except_pure_ok h
  rfl

theorem branchHt3D_stage {cfg : RunConfig} {md : ImgMd} {st : LoopState}
    {g : DataGroup} {b : BranchOut} (h : branchHt3D cfg md st g = .ok b) :
    b.stageLabel = none := by
  unfold branchHt3D at h
  obtain ⟨items, _, h⟩ := except_bind_ok h
  obtain ⟨s, _, h⟩ := except_bind_ok h
  obtain ⟨ts, _, h⟩ := except_bind_ok h
  obtain ⟨ex, _, h⟩ := except_bind_ok h
  obtain rfl := except_pure_ok h
  rfl

theorem branchFlMip_stage {cfg : RunConfig} {md : ImgMd} {st : LoopState}
    {g : DataGroup} {b : BranchOut} (h : branchFlMip cfg md st g = .ok b) :
    b.stageLabel = none := by
  unfold branchFlMip at h
  obtain ⟨chEntry, _, h⟩ := except_bind_ok h
  obtain ⟨sub, _, h⟩ := except_bind_ok h
  obtain ⟨c, _, h⟩ := except_bind_ok h
  obtain ⟨base, _, h⟩ := except_bind_ok h
  obtain ⟨s, _, h⟩ := except_bind_ok h
  obtain ⟨ts, _, h⟩ := except_bind_ok h
  obtain ⟨ex, _, h⟩ := except_bind_ok h
  obtain rfl := except_pure_ok h
  rfl

theorem branchFl3D_stage {cfg : RunConfig} {md : ImgMd} {dat : TCFData}
    {st : LoopState} {g : DataGroup} {b : BranchOut}
    (h : branchFl3D cfg md dat st g = .ok b) :
    ∃ flg oz rz sz, findGroup dat "3DFL" = some flg ∧
      flg.attrs.offsetZ = some oz ∧ flg.attrs.resolutionZ = some rz ∧
      flg.attrs.sizeZ = some sz ∧
      b.stageLabel = some (def_ht_fl_shift_stagelabel oz (rz * (sz : Rat))) := by
  unfold branchFl3D at h
  obtain ⟨chEntry, _, h⟩ := except_bind_ok h
  obtain ⟨sub, _, h⟩ := except_bind_ok h
  obtain ⟨c, _, h⟩ := except_bind_ok h
  obtain ⟨base, _, h⟩ := except_bind_ok h
  obtain ⟨s, _, h⟩ := except_bind_ok h
  obtain ⟨ts, _, h⟩ := except_bind_ok h
  obtain ⟨flg, hflg, h⟩ := except_bind_ok h
  obtain ⟨oz, hoz, h⟩ := except_bind_ok h
  obtain ⟨rz, hrz, h⟩ := except_bind_ok h
  obtain ⟨sz, hsz, h⟩ := except_bind_ok h
  obtain ⟨ex, _, h⟩ := except_bind_ok h
  obtain rfl := except_pure_ok h
  exact ⟨flg, oz, rz, sz, getOrErr_ok hflg, getOrErr_ok hoz, getOrErr_ok hrz,
         getOrErr_ok hsz, rfl⟩

theorem branchFor_skip {cfg : RunConfig} {md : ImgMd} {dat : TCFData}
    {st : LoopState} {g : DataGroup} {name : String}
    (h : branchFor cfg md dat st g name = .ok none) : name ∉ recognizedNames := by
  unfold branchFor at h
  split_ifs at h with h1 h2 h3 h4 h5 h6
  · exact (map_some_ne_ok_none h).elim
  · exact (map_some_ne_ok_none h).elim
  · exact (map_some_ne_ok_none h).elim
  · exact (map_some_ne_ok_none h).elim
  · exact (map_some_ne_ok_none h).elim
  · exact (map_some_ne_ok_none h).elim
  · simp [recognizedNames, h1, h2, h3, h4, h5, h6]

theorem branchFor_ok_some {cfg : RunConfig} {md : ImgMd} {dat : TCFData}
    {st : LoopState} {g : DataGroup} {name : String} {b : BranchOut}
    (h : branchFor cfg md dat st g name = .ok (some b)) :
    name ∈ recognizedNames ∧
    (name ≠ "3DFL" → b.stageLabel = none) ∧
    (name = "3DFL" →
      ∃ flg oz rz sz, findGroup dat "3DFL" = some flg ∧
        flg.attrs.offsetZ = some oz ∧ flg.attrs.resolutionZ = some rz ∧
        flg.attrs.sizeZ = some sz ∧
        b.stageLabel = some (def_ht_fl_shift_stagelabel oz (rz * (sz : Rat)))) := by
  unfold branchFor at h
  split_ifs at h with h1 h2 h3 h4 h5 h6
  case pos =>
    subst h1
    cases hb : branchHtMip cfg md st g with
    | error e => rw [hb] at h; exact Except.noConfusion h
    | ok b0 =>
      rw [hb] at h
      obtain rfl : b0 = b := by
        have := h
        simp only [Except.map] at this
        injection this with h2
        injection h2
      exact ⟨by decide, fun _ => branchHtMip_stage hb, fun hne => absurd hne (by decide)⟩
  case pos =>
    subst h2
    cases hb : branchHt2D cfg md st g with
    | error e => rw [hb] at h; exact Except.noConfusion h
    | ok b0 =>
      rw [hb] at h
      obtain rfl : b0 = b := by
        have := h
        simp only [Except.map] at this
        injection this with h2
        injection h2
      exact ⟨by decide, fun _ => branchHt2D_stage hb, fun hne => absurd hne (by decide)⟩
  case pos =>
    subst h3
    cases hb : branchBf cfg md st g with
    | error e => rw [hb] at h; exact Except.noConfusion h
    | ok b0 =>
      rw [hb] at h
      obtain rfl : b0 = b := by
        have := h
        simp only [Except.map] at this
        injection this with h2
        injection h2
      exact ⟨by decide, fun _ => branchBf_stage hb, fun hne => absurd hne (by decide)⟩
  case pos =>
    subst h4
    cases hb : branchHt3D cfg md st g with
    | error e => rw [hb] at h; exact Except.noConfusion h
    | ok b0 =>
      rw [hb] at h
      obtain rfl : b0 = b := by
        have := h
        simp only [Except.map] at this
        injection this with h2
        injection h2
      exact ⟨by decide, fun _ => branchHt3D_stage hb, fun hne => absurd hne (by decide)⟩
  case pos =>
    subst h5
    cases hb : branchFlMip cfg md st g with
    | error e => rw [hb] at h; exact Except.noConfusion h
    | ok b0 =>
      rw [hb] at h
      obtain rfl : b0 = b := by
        have := h
        simp only [Except.map] at this
        injection this with h2
        injection h2
      exact ⟨by decide, fun _ => branchFlMip_stage hb, fun hne => absurd hne (by decide)⟩
  case pos =>
    subst h6
    cases hb : branchFl3D cfg md dat st g with
    | error e => rw [hb] at h; exact Except.noConfusion h
    | ok b0 =>
      rw [hb] at h
      obtain rfl : b0 = b := by
        have := h
        simp only [Except.map] at this
        injection this with h2
        injection h2
      exact ⟨by decide, fun hne => absurd rfl hne, fun _ => branchFl3D_stage hb⟩
  case neg =>
    injection h with h7
    exact Option.noConfusion h7

theorem emitImage_ok {overall : OverallMd} {cfg : RunConfig} {md : ImgMd}
    {tiling : Option TilingInfo} {st : LoopState} {ic : Nat} {name : String}
    {g : DataGroup} {b : BranchOut} {st' : LoopState}
    (h : emitImage overall cfg md tiling st ic name g b = .ok st') :
    ∃ img, st'.images = st.images ++ [img] ∧ st'.offset = st.offset + img.planeCount ∧
      img.ifd = st.offset ∧ img.channels.map (·.id) = [some ic] ∧
      img.srcGroup = name ∧ img.stageLabel = b.stageLabel ∧
      img.sizeC = 1 ∧ img.channels.length = 1 ∧
      img.planeCount = img.sizeZ * img.sizeT * img.sizeC ∧
      img.experimentRefId = md.exp.id ∧
      g.attrs.dataCount = some img.sizeT ∧ g.attrs.timeInterval = some img.timeIncrement ∧
      img.sizeZ = zLen g.attrs ∧
      (tiling = none →
        ∃ s1 s2, img.fmtShape.get? 1 = some s1 ∧ img.fmtShape.get? 2 = some s2 ∧
          img.planes.length = s1 * s2 ∧
          ∀ p ∈ img.planes, p.deltaT = (p.theT : Rat) * img.timeIncrement) ∧
      (∀ t, tiling = some t →
        ∃ s2, img.fmtShape.get? 2 = some s2 ∧ img.planes.length = s2 ∧
          ∀ p ∈ img.planes, p.deltaT = (t.tileTimestep : Rat) * t.tileTimestepSize ∧
            p.theT = t.tileTimestep) := by
  unfold emitImage at h
  obtain ⟨pa, hmk, h⟩ := except_bind_ok h
  obtain ⟨planes, annRefs⟩ := pa
  cases hb : build_ome_xml g.attrs st.offset
      [{ b.channelBase with id := some ic }] (pyDropLast b.timestampRaw 4)
      b.description md.exp.id overall.experId md.instrId b.stageLabel
      b.dataType annRefs planes name b.fmtShape with
  | error e =>
    simp only [hb] at h
    exact Except.noConfusion h
  | ok p =>
    obtain ⟨img, off'⟩ := p
    simp only [hb] at h
    obtain rfl := except_pure_ok h
    obtain ⟨hifd, hoff, hc1, hpc, hdc, hti, hz, hch, hpl, hexp, hsl, hsrc, hshape⟩ :=
      build_ome_xml_ok hb
    obtain ⟨hnone, hsome⟩ := mkPlanes_ok hmk
    refine ⟨img, rfl, hoff, hifd, ?_, hsrc, hsl, hc1, ?_, hpc, hexp, hdc, hti, hz, ?_, ?_⟩
    · rw [hch]; simp
    · rw [hch]; rfl
    · intro htl
      obtain ⟨s1, s2, ti, ha, ha2, htiv, hlen, hdt⟩ := hnone htl
      obtain rfl : ti = img.timeIncrement := by
        rw [htiv] at hti
        injection hti
      refine ⟨s1, s2, ?_, ?_, ?_, ?_⟩
      · rw [hshape]; exact ha
      · rw [hshape]; exact ha2
      · rw [hpl]; exact hlen
      · rw [hpl]; exact hdt
    · intro t htl
      obtain ⟨s2, ha, hlen, hdt⟩ := hsome t htl
      refine ⟨s2, ?_, ?_, ?_⟩
      · rw [hshape]; exact ha
      · rw [hpl]; exact hlen
      · rw [hpl]; exact hdt

theorem processName_ok {overall : OverallMd} {cfg : RunConfig} {md : ImgMd}
    {tiling : Option TilingInfo} {dat : TCFData} {st : LoopState} {ic : Nat}
    {name : String} {st' : LoopState}
    (h : processName overall cfg md tiling dat st ic name = .ok st') :
    (st' = st ∧ name ∉ recognizedNames) ∨
    (∃ img, st'.images = st.images ++ [img] ∧ st'.offset = st.offset + img.planeCount ∧
       img.ifd = st.offset ∧ img.channels.map (·.id) = [some ic] ∧ img.srcGroup = name ∧
       ImgProps md tiling dat img) := by
  unfold processName at h
  cases hg : findGroup dat name with
  | none =>
    simp only [hg] at h
    exact Except.noConfusion h
  | some g =>
    simp only [hg] at h
    cases hbf : branchFor cfg md dat st g name with
    | error e =>
      simp only [hbf] at h
      exact Except.noConfusion h
    | ok ob =>
      cases ob with
      | none =>
        simp only [hbf] at h
        obtain rfl : st = st' := by injection h
        exact Or.inl ⟨rfl, branchFor_skip hbf⟩
      | some b =>
        simp only [hbf] at h
        obtain ⟨img, him, hoff, hifd, hchid, hsrc, hslb, hc1, hclen, hpc, hexp,
          hdc, hti, hz, hpn, hpt⟩ := emitImage_ok h
        obtain ⟨hmem, hsn, hsf⟩ := branchFor_ok_some hbf
        refine Or.inr ⟨img, him, hoff, hifd, hchid, hsrc, ?_⟩
        refine ⟨hc1, hclen, hpc, hexp, ⟨g, ?_, hdc, hti, hz⟩, ?_, ?_, ?_, ?_⟩
        · rw [hsrc]; exact hg
        · intro hne
          rw [hslb]
          exact hsn (by rw [hsrc] at hne; exact hne)
        · intro heq
          obtain ⟨flg, oz, rz, sz, e1, e2, e3, e4, e5⟩ := hsf (by rw [← hsrc]; exact heq)
          exact ⟨flg, oz, rz, sz, e1, e2, e3, e4, by rw [hslb]; exact e5⟩
        · intro htl
          exact hpn htl
        · intro t htl
          exact hpt t htl

theorem idsFrom_mono {m n : Nat} {l : List OmeImage} (hmn : m ≤ n)
    (h : idsFrom n l) : idsFrom m l := by
  cases l with
  | nil => trivial
  | cons a l =>
    obtain ⟨j, h1, h2, h3⟩ := h
    exact ⟨j, h1, le_trans hmn h2, h3⟩

theorem runLoop_ok {overall : OverallMd} {cfg : RunConfig} {md : ImgMd}
    {tiling : Option TilingInfo} {dat : TCFData} {names : List String}
    {st : LoopState} {ic : Nat} {st' : LoopState}
    (h : runLoop overall cfg md tiling dat st ic names = .ok st') :
    ∃ tail, st'.images = st.images ++ tail ∧
      chainFrom st.offset tail st'.offset ∧
      (∀ img ∈ tail, ImgProps md tiling dat img) ∧
      idsFrom ic tail ∧
      ((∀ n ∈ names, n ∈ recognizedNames) →
        chanIds tail = List.range' ic tail.length) := by
  induction names generalizing st ic with
  | nil =>
    simp only [runLoop] at h
    obtain rfl : st = st' := by injection h
    exact ⟨[], by simp, rfl, by simp, trivial, fun _ => rfl⟩
  | cons name rest ih =>
    simp only [runLoop] at h
    cases hpn : processName overall cfg md tiling dat st ic name with
    | error e =>
      simp only [hpn] at h
      exact Except.noConfusion h
    | ok st2 =>
      simp only [hpn] at h
      obtain ⟨tail2, htail2, hchain2, hprops2, hids2, hrange2⟩ := ih h
      rcases processName_ok hpn with ⟨rfl, hnr⟩ | ⟨img, him, hoff, hifd, hchid, hsrc, hprops⟩
      · refine ⟨tail2, htail2, hchain2, hprops2, idsFrom_mono (Nat.le_succ ic) hids2, ?_⟩
        intro hall
        exact absurd (hall name (List.mem_cons_self name rest)) hnr
      · refine ⟨img :: tail2, ?_, ?_, ?_, ?_, ?_⟩
        · rw [htail2, him, List.append_cons, List.append_assoc]
          simp
        · refine ⟨hifd, ?_⟩
          rw [← hoff]
          exact hchain2
        · intro x hx
          rcases List.mem_cons.mp hx with rfl | hmem
          · exact hprops
          · exact hprops2 x hmem
        · refine ⟨ic, ?_, le_refl ic, hids2⟩
          simp [chanId?, hchid]
        · intro hall
          have hrest := hrange2 (fun n hn => hall n (List.mem_cons_of_mem name hn))
          have hcid : chanId? img = some ic := by simp [chanId?, hchid]
          simp only [chanIds] at hrest ⊢
          simp only [List.filterMap_cons, hcid]
          rw [hrest]
          rfl

theorem chainFrom_final {o : Nat} {l : List OmeImage} {o' : Nat}
    (h : chainFrom o l o') : o' = o + (l.map (·.planeCount)).sum := by
  induction l generalizing o with
  | nil => simpa [chainFrom] using h
  | cons a l ih =>
    obtain ⟨_, h2⟩ := h
    rw [List.map_cons, List.sum_cons, ← Nat.add_assoc]
    exact ih h2

theorem chainFrom_ifd_ge {o : Nat} {l : List OmeImage} {o' : Nat}
    (h : chainFrom o l o') : ∀ img ∈ l, o ≤ img.ifd := by
  induction l generalizing o with
  | nil => intro img him; cases him
  | cons a l ih =>
    intro img him
    obtain ⟨h1, h2⟩ := h
    rcases List.mem_cons.mp him with rfl | hmem
    · rw [h1]
    · exact le_trans (Nat.le_add_right o a.planeCount) (ih h2 img hmem)

theorem chainFrom_pairwise {o : Nat} {l : List OmeImage} {o' : Nat}
    (h : chainFrom o l o') : (l.map (·.ifd)).Pairwise (· ≤ ·) := by
  induction l generalizing o with
  | nil => simp
  | cons a l ih =>
    obtain ⟨h1, h2⟩ := h
    simp only [List.map_cons, List.pairwise_cons]
    refine ⟨?_, ih h2⟩
    intro x hx
    simp only [List.mem_map] at hx
    obtain ⟨img, hmem, rfl⟩ := hx
    calc a.ifd = o := h1
    _ ≤ o + a.planeCount := Nat.le_add_right o a.planeCount
    _ ≤ img.ifd := chainFrom_ifd_ge h2 img hmem

theorem idsFrom_ge {n : Nat} {l : List OmeImage} (h : idsFrom n l) :
    ∀ j ∈ chanIds l, n ≤ j := by
  induction l generalizing n with
  | nil => simp [chanIds]
  | cons a l ih =>
    obtain ⟨j, h1, h2, h3⟩ := h
    intro k hk
    simp only [chanIds, List.filterMap_cons, h1] at hk
    rcases List.mem_cons.mp hk with rfl | hmem
    · exact h2
    · exact le_trans (le_trans h2 (Nat.le_succ j)) (ih h3 k hmem)

theorem idsFrom_pairwise {n : Nat} {l : List OmeImage} (h : idsFrom n l) :
    (chanIds l).Pairwise (· < ·) := by
  induction l generalizing n with
  | nil => simp [chanIds]
  | cons a l ih =>
    obtain ⟨j, h1, h2, h3⟩ := h
    simp only [chanIds, List.filterMap_cons, h1]
    refine List.Pairwise.cons ?_ (ih h3)
    intro k hk
    exact lt_of_lt_of_le (Nat.lt_succ_self j) (idsFrom_ge h3 k hk)

theorem define_image_metadata_exp {overall : OverallMd} {kv : List (String × String)}
    {tiling : Option TilingInfo} {md : ImgMd}
    (h : define_image_metadata overall kv tiling = some md) :
    ∃ jt, pyGet kv "Job_Title" = some jt ∧
      md.exp = def_experiment jt overall.experId := by
  unfold define_image_metadata at h
  cases hjt : pyGet kv "Job_Title" with
  | none =>
    simp only [hjt] at h
    exact Option.noConfusion h
  | some jt =>
    simp only [hjt] at h
    refine ⟨jt, rfl, ?_⟩
    repeat split at h
    all_goals try exact Option.noConfusion h
    injection h with h2
    rw [← h2]

/-- The shape of a successful `transform_tcf` run: everything the claim
theorems read off the produced document. -/
theorem transform_tcf_ok {overall : OverallMd} {f : FolderFiles} {mip : Bool}
    {doc : OMEDoc} (h : transform_tcf overall f mip = .ok doc) :
    ∃ cfg md dat, read_image_config f = .ok cfg ∧ f.tcf = some dat ∧
      define_image_metadata overall cfg.kv f.tiling = some md ∧
      doc.experiments = [md.exp] ∧
      chainFrom 0 doc.images doc.finalPlaneOffset ∧
      (∀ img ∈ doc.images, ImgProps md f.tiling dat img) ∧
      idsFrom 0 doc.images ∧
      ((∀ n ∈ keysToLoop mip dat, n ∈ recognizedNames) →
        chanIds doc.images = List.range doc.images.length) := by
  unfold transform_tcf at h
  cases hcfg : read_image_config f with
  | error e =>
    simp only [hcfg] at h
    exact Except.noConfusion h
  | ok cfg =>
    simp only [hcfg] at h
    cases hmd : define_image_metadata overall cfg.kv f.tiling with
    | none =>
      simp only [hmd] at h
      exact Except.noConfusion h
    | some md =>
      simp only [hmd] at h
      cases hdat : f.tcf with
      | none =>
        simp only [hdat] at h
        exact Except.noConfusion h
      | some dat =>
        simp only [hdat] at h
        cases hloop : runLoop overall cfg md f.tiling dat ⟨0, 0, 0, []⟩ 0
            (keysToLoop mip dat) with
        | error e =>
          simp only [hloop] at h
          exact Except.noConfusion h
        | ok st =>
          simp only [hloop] at h
          obtain rfl : _ = doc := by injection h
          obtain ⟨tail, htail, hchain, hprops, hids, hrange⟩ := runLoop_ok hloop
          simp only [List.nil_append] at htail
          refine ⟨cfg, md, dat, rfl, rfl, hmd, rfl, ?_, ?_, ?_, ?_⟩
          · show chainFrom 0 st.images st.offset
            rw [htail]
            exact hchain
          · show ∀ img ∈ st.images, ImgProps md f.tiling dat img
            rw [htail]
            exact hprops
          · show idsFrom 0 st.images
            rw [htail]
            exact hids
          · intro hall
            show chanIds st.images = List.range st.images.length
            rw [htail, List.range_eq_range']
            exact hrange hall

/-- A missing `config.dat` makes `transform_tcf` fail with the wrapped
config-read error (the `raise Exception("Skipping folder ...")`). -/
theorem transform_tcf_configRead {overall : OverallMd} {f : FolderFiles}
    {mip : Bool} (hcfg : f.configDat = none) :
    transform_tcf overall f mip =
      .error (.configRead f.name "FileNotFoundError: config.dat") := by
  unfold transform_tcf read_image_config
  rw [hcfg]

theorem option_bind_ok {α β : Type} {x : Option α} {f : α → Option β} {b : β}
    (h : x >>= f = some b) : ∃ a, x = some a ∧ f a = some b := by
  cases x with
  | none => exact Option.noConfusion h
  | some a => exact ⟨a, rfl, h⟩

theorem option_pure_ok {α : Type} {a b : α}
    (h : (pure a : Option α) = some b) : a = b := by
  injection h

theorem option_some_bind {α β : Type} (a : α) (f : α → Option β) :
    (some a >>= f) = f a := rfl

theorem overallAnn_shape {md : List (String × String)} {a0 : Ann}
    (h : overallAnn md = some a0) : a0.id = 0 ∧ a0.ns = "overall" := by
  unfold overallAnn at h
  obtain ⟨mn, _, h⟩ := option_bind_ok h
  obtain ⟨mri, _, h⟩ := option_bind_ok h
  obtain ⟨iri, _, h⟩ := option_bind_ok h
  obtain ⟨an, _, h⟩ := option_bind_ok h
  obtain ⟨sw, _, h⟩ := option_bind_ok h
  obtain ⟨jt, _, h⟩ := option_bind_ok h
  obtain rfl := option_pure_ok h
  exact ⟨rfl, rfl⟩

theorem htAnn_shape {md : List (String × String)} {a : Ann}
    (h : htAnn md = some a) : a.ns = "holotomography" := by
  unfold htAnn at h
  obtain ⟨ms, _, h⟩ := option_bind_ok h
  obtain ⟨ps, _, h⟩ := option_bind_ok h
  obtain ⟨it, _, h⟩ := option_bind_ok h
  obtain ⟨sh, _, h⟩ := option_bind_ok h
  obtain ⟨ga, _, h⟩ := option_bind_ok h
  obtain rfl := option_pure_ok h
  rfl

theorem bfAnn_shape {md : List (String × String)} {a : Ann}
    (h : bfAnn md = some a) : a.ns = "brightfield" := by
  unfold bfAnn at h
  obtain ⟨sh, _, h⟩ := option_bind_ok h
  obtain ⟨li, _, h⟩ := option_bind_ok h
  obtain rfl := option_pure_ok h
  rfl

theorem flAnnFor_shape {md : List (String × String)} {i : Nat} {l : List Ann}
    (h : flAnnFor md i = some l) :
    ∀ a ∈ l, a.ns = "fluorescence" ∧ a.id = i + 3 := by
  unfold flAnnFor at h
  obtain ⟨en, _, h⟩ := option_bind_ok h
  by_cases he : en = "true"
  · rw [if_pos he] at h
    obtain ⟨sh, _, h⟩ := option_bind_ok h
    obtain ⟨ga, _, h⟩ := option_bind_ok h
    obtain ⟨li, _, h⟩ := option_bind_ok h
    obtain rfl := option_pure_ok h
    intro a ha
    obtain rfl := List.mem_singleton.mp ha
    exact ⟨rfl, rfl⟩
  · rw [if_neg he] at h
    obtain rfl := option_pure_ok h
    intro a ha
    cases ha

theorem flAnnFor_false {md : List (String × String)} {i : Nat} {l : List Ann}
    (hen : pyGet md ("FLCH" ++ toString i ++ "_Enable") = some "false")
    (h : flAnnFor md i = some l) : l = [] := by
  unfold flAnnFor at h
  obtain ⟨en, hen2, h⟩ := option_bind_ok h
  rw [hen] at hen2
  obtain rfl : "false" = en := by injection hen2
  rw [if_neg (by decide)] at h
  exact (option_pure_ok h).symm

theorem flAnnsAll_mem {md : List (String × String)} {l : List Ann}
    (h : flAnnsAll md = some l) {i : Nat} (hi : i < 3)
    (hen : pyGet md ("FLCH" ++ toString i ++ "_Enable") = some "false") :
    ∀ a ∈ l, ¬(a.ns = "fluorescence" ∧ a.id = i + 3) := by
  unfold flAnnsAll at h
  obtain ⟨l0, h0, h⟩ := option_bind_ok h
  obtain ⟨l1, h1, h⟩ := option_bind_ok h
  obtain ⟨l2, h2, h⟩ := option_bind_ok h
  obtain rfl := option_pure_ok h
  rintro a ha ⟨hns, hid⟩
  interval_cases i
  · obtain rfl := flAnnFor_false hen h0
    rcases List.mem_append.mp ha with hm | hm
    · rcases List.mem_append.mp hm with hm2 | hm2
      · cases hm2
      · have := (flAnnFor_shape h1 a hm2).2
        omega
    · have := (flAnnFor_shape h2 a hm).2
      omega
  · obtain rfl := flAnnFor_false hen h1
    rcases List.mem_append.mp ha with hm | hm
    · rcases List.mem_append.mp hm with hm2 | hm2
      · have := (flAnnFor_shape h0 a hm2).2
        omega
      · cases hm2
    · have := (flAnnFor_shape h2 a hm).2
      omega
  · obtain rfl := flAnnFor_false hen h2
    rcases List.mem_append.mp ha with hm | hm
    · rcases List.mem_append.mp hm with hm2 | hm2
      · have := (flAnnFor_shape h0 a hm2).2
        omega
      · have := (flAnnFor_shape h1 a hm2).2
        omega
    · cases hm

theorem htPart_shape {md : List (String × String)} {hc : Bool} {l : List Ann}
    (h : condPart hc (htAnn md) = some l) :
    ∀ a ∈ l, a.ns = "holotomography" := by
  unfold condPart at h
  cases hc
  · rw [if_neg (by decide)] at h
    obtain rfl := option_pure_ok h
    intro a ha
    cases ha
  · rw [if_pos rfl] at h
    cases hta : htAnn md with
    | none =>
      rw [hta] at h
      exact Option.noConfusion h
    | some a1 =>
      rw [hta] at h
      obtain rfl : [a1] = l := by injection h
      intro a ha
      obtain rfl := List.mem_singleton.mp ha
      exact htAnn_shape hta

theorem bfPart_shape {md : List (String × String)} {bc : Bool} {l : List Ann}
    (h : condPart bc (bfAnn md) = some l) :
    ∀ a ∈ l, a.ns = "brightfield" := by
  unfold condPart at h
  cases bc
  · rw [if_neg (by decide)] at h
    obtain rfl := option_pure_ok h
    intro a ha
    cases ha
  · rw [if_pos rfl] at h
    cases hta : bfAnn md with
    | none =>
      rw [hta] at h
      exact Option.noConfusion h
    | some a1 =>
      rw [hta] at h
      obtain rfl : [a1] = l := by injection h
      intro a ha
      obtain rfl := List.mem_singleton.mp ha
      exact bfAnn_shape hta

theorem tilingPart_ns {tiling : Option TilingInfo} :
    ∀ a ∈ tilingPart tiling, a.ns = "tiling" := by
  cases tiling with
  | none => intro a ha; cases ha
  | some t =>
    intro a ha
    obtain rfl := List.mem_singleton.mp ha
    rfl

/-! ### String lemmas for the `Immersion_RI` rewrite -/

theorem listIsPrefixOf_append (l m : List Char) : l.isPrefixOf (l ++ m) = true := by
  induction l with
  | nil => simp [List.isPrefixOf]
  | cons a t ih => simp [List.isPrefixOf, ih]

theorem pyStartsWith_append (pre w : String) : pyStartsWith (pre ++ w) pre = true := by
  unfold pyStartsWith
  rw [String.data_append]
  exact listIsPrefixOf_append pre.data w.data

theorem strAppend_assoc (a b c : String) : a ++ b ++ c = a ++ (b ++ c) :=
  String.append_assoc a b c

theorem pyDrop_append12 (w : String) : pyDrop ("Immersion_RI" ++ w) 12 = w := by
  unfold pyDrop
  rw [String.data_append]
  rw [show (12 : Nat) = ("Immersion_RI".data).length from by decide]
  rw [List.drop_left]

theorem dropWhile_nl_stable {l r : List Char}
    (hl : ∀ c ∈ l, (c == '\n') = false)
    (hr : r.dropWhile (· == '\n') = r) :
    (l ++ r).dropWhile (· == '\n') = l ++ r := by
  cases l with
  | nil => simpa using hr
  | cons a t =>
    have ha : ((a == '\n') : Bool) = false := hl a (List.mem_cons_self a t)
    rw [List.cons_append, List.dropWhile_cons_of_neg (by simp [ha])]

theorem pyRstripNl_concat (y : String) (hy : '\n' ∉ y.data) :
    pyRstripNl ("Immersion_RI," ++ y ++ "\n") = "Immersion_RI," ++ y := by
  refine congrArg String.mk ?_
  have hdata : ("Immersion_RI," ++ y ++ "\n").data
      = ("Immersion_RI,".data ++ y.data) ++ ['\n'] := by
    rw [String.data_append, String.data_append]
  have hl : ∀ c ∈ y.data.reverse, (c == '\n') = false := by
    intro c hc
    simp only [List.mem_reverse] at hc
    simp only [beq_eq_false_iff_ne, ne_eq]
    intro hcc
    exact hy (hcc ▸ hc)
  have hr : ("Immersion_RI,".data.reverse).dropWhile (· == '\n')
      = "Immersion_RI,".data.reverse := by decide
  rw [hdata, List.reverse_append, List.reverse_append]
  rw [show (['\n'] : List Char).reverse = ['\n'] from rfl]
  rw [show ((['\n'] : List Char) ++ (y.data.reverse ++ "Immersion_RI,".data.reverse))
      = '\n' :: (y.data.reverse ++ "Immersion_RI,".data.reverse) from rfl]
  rw [List.dropWhile_cons_of_pos (by decide)]
  rw [dropWhile_nl_stable hl hr]
  rw [List.reverse_append, List.reverse_reverse, List.reverse_reverse]

theorem imm_line_ne_nl (w : String) : ("Immersion_RI," ++ w) ≠ "\n" := by
  intro h
  have hl := congrArg (fun s : String => s.data.length) h
  simp only [String.data_append, List.length_append] at hl
  rw [show ("Immersion_RI,".data).length = 13 from by decide] at hl
  rw [show ("\n".data).length = 1 from by decide] at hl
  omega

theorem splitOnceL_append {sep : Char} (xs : List Char) (hx : sep ∉ xs) (ys : List Char) :
    splitOnceL sep (xs ++ sep :: ys) = (xs, some ys) := by
  induction xs with
  | nil => simp [splitOnceL]
  | cons a t ih =>
    have ha : (a == sep) = false := by
      simp only [beq_eq_false_iff_ne, ne_eq]
      intro hcontra
      exact hx (List.mem_cons.mpr (Or.inl hcontra.symm))
    rw [List.cons_append]
    simp only [splitOnceL, ha]
    rw [ih (fun hm => hx (List.mem_cons_of_mem a hm))]
    rw [if_neg (by decide)]

theorem pySplitOnce_imm (u : String) :
    pySplitOnce ',' ("Immersion_RI," ++ u) = ("Immersion_RI", some u) := by
  unfold pySplitOnce
  have hdata : ("Immersion_RI," ++ u).data = "Immersion_RI".data ++ (',' :: u.data) := by
    rw [String.data_append]
    rw [show ("Immersion_RI,".data) = "Immersion_RI".data ++ [','] from by decide]
    rw [List.append_assoc]
    rfl
  rw [hdata, splitOnceL_append _ (by decide) _]

theorem parseDelimLines_single {l k v : String}
    (hne : l ≠ "\n") (hsplit : pySplitOnce ',' (pyRstripNl l) = (k, some v)) :
    parseDelimLines ',' [l] = some [(k, v)] := by
  unfold parseDelimLines
  rw [List.filter_cons_of_pos (by simp [hne]), List.filter_nil]
  simp [List.mapM, List.mapM.loop, hsplit]

/-! ### The claims -/

/-- C1 (counterexample): a `3D` group with `SizeZ = 10` present but
`ResolutionZ` absent and `DataCount = 2` yields an image with plane count
`2`, not `SizeZ × DataCount × 1 = 20` — the `except KeyError` of
`build_ome_xml` resets `len_z` to 1 when `ResolutionZ` is missing even
though `SizeZ` was read. -/
theorem C1_sizez_resolutionz_counterexample :
    (transform_tcf wOverall wFolderNoRz true).toOption.map
        (fun d => d.images.map (fun i => i.planeCount)) = some [2] ∧
    wTcfNoRz.data.map
        (fun p => (p.2.attrs.sizeZ, p.2.attrs.resolutionZ, p.2.attrs.dataCount)) =
      [(some 10, none, some 2)] ∧
    (2 : Nat) ≠ 10 * 2 * 1 :=
  ⟨rfl, rfl, by decide⟩

/-- C1 (amended): the global plane offset starts at 0 and advances by each
image's plane count in emission order, where the plane count is
(`SizeZ` if both the `SizeZ` and `ResolutionZ` attributes are present,
else 1) × `DataCount` × 1; the per-image offsets are non-decreasing and the
offset after the last image equals the sum of all plane counts. -/
theorem C1_plane_offsets (overall : OverallMd) (f : FolderFiles) (mip : Bool)
    (dat : TCFData) (doc : OMEDoc) (hdat : f.tcf = some dat)
    (h : transform_tcf overall f mip = .ok doc) :
    chainFrom 0 doc.images doc.finalPlaneOffset ∧
    (doc.images.map (·.ifd)).Pairwise (· ≤ ·) ∧
    doc.finalPlaneOffset = (doc.images.map (·.planeCount)).sum ∧
    ∀ img ∈ doc.images, ∃ g, findGroup dat img.srcGroup = some g ∧
      g.attrs.dataCount = some img.sizeT ∧
      img.planeCount = zLen g.attrs * img.sizeT * 1 := by
  obtain ⟨cfg, md, dat2, hcfg, hdat2, hmd, hexps, hchain, hprops, hids, hrange⟩ :=
    transform_tcf_ok h
  obtain rfl : dat = dat2 := by
    rw [hdat] at hdat2
    injection hdat2
  refine ⟨hchain, chainFrom_pairwise hchain, by simpa using chainFrom_final hchain, ?_⟩
  intro img him
  obtain ⟨g, hg, hdc, hti, hz⟩ := (hprops img him).attrsLink
  refine ⟨g, hg, hdc, ?_⟩
  have h1 := (hprops img him).planeCount_eq
  have h2 := (hprops img him).sizeC_eq
  rw [h1, h2, hz]

theorem C1_plane_offsets_witness :
    chainFrom 0 wDoc.images wDoc.finalPlaneOffset ∧
    wDoc.finalPlaneOffset = (wDoc.images.map (·.planeCount)).sum := by
  have h := C1_plane_offsets wOverall wFolder true wTcf wDoc rfl rfl
  exact ⟨h.1, h.2.2.1⟩

/-- C2 (counterexample): with groups `3D`, `FooBar` (unknown, skipped) and
`2DMIP`, the two emitted images get channel ids 0 and 2 — the channel id is
the enumerate index of the expanded key list, so skipping an unrecognized
group leaves a gap instead of sequential ids 0, 1. -/
theorem C2_channel_id_gap_counterexample :
    (transform_tcf wOverall wFolderGap true).toOption.map
        (fun d => d.images.map (fun i => i.channels.map (·.id))) =
      some [[some 0], [some 2]] ∧
    [[some (0 : Nat)], [some 2]] ≠ [[some 0], [some 1]] :=
  ⟨rfl, by decide⟩

/-- C2 (amended): every emitted image's channel list has exactly one element
and the channel ids are unique and strictly increasing in emission order
(they are the positions in the expanded traversal list); they are sequential
from 0 exactly when every name in the traversal list is a recognized
modality (no skipped entry). -/
theorem C2_channel_ids (overall : OverallMd) (f : FolderFiles) (mip : Bool)
    (doc : OMEDoc) (h : transform_tcf overall f mip = .ok doc) :
    (∀ img ∈ doc.images, img.channels.length = 1) ∧
    (chanIds doc.images).Pairwise (· < ·) ∧
    ∀ dat, f.tcf = some dat →
      (∀ n ∈ keysToLoop mip dat, n ∈ recognizedNames) →
      chanIds doc.images = List.range doc.images.length := by
  obtain ⟨cfg, md, dat2, hcfg, hdat2, hmd, hexps, hchain, hprops, hids, hrange⟩ :=
    transform_tcf_ok h
  refine ⟨fun img him => (hprops img him).channels_len, idsFrom_pairwise hids, ?_⟩
  intro dat hdat hall
  obtain rfl : dat2 = dat := by
    rw [hdat2] at hdat
    injection hdat
  exact hrange hall

theorem C2_channel_ids_witness :
    chanIds wDoc.images = List.range wDoc.images.length := by
  have h := C2_channel_ids wOverall wFolder true wDoc rfl
  exact h.2.2 wTcf rfl (by decide)

/-- C3: for every emitted image, the image's `time_increment` is the
modality's `TimeInterval` attribute; with tiling metadata present every
plane's elapsed time is exactly `tile_timestep * tile_timestep_size` (and
its time index is `tile_timestep`), while with tiling absent it is
`time_index * TimeInterval`. -/
theorem C3_plane_delta_t (overall : OverallMd) (f : FolderFiles) (mip : Bool)
    (dat : TCFData) (doc : OMEDoc) (hdat : f.tcf = some dat)
    (h : transform_tcf overall f mip = .ok doc) :
    ∀ img ∈ doc.images,
      (∃ g, findGroup dat img.srcGroup = some g ∧
        g.attrs.timeInterval = some img.timeIncrement) ∧
      ∀ p ∈ img.planes,
        (∀ t, f.tiling = some t →
          p.deltaT = (t.tileTimestep : Rat) * t.tileTimestepSize ∧
          p.theT = t.tileTimestep) ∧
        (f.tiling = none → p.deltaT = (p.theT : Rat) * img.timeIncrement) := by
  obtain ⟨cfg, md, dat2, hcfg, hdat2, hmd, hexps, hchain, hprops, hids, hrange⟩ :=
    transform_tcf_ok h
  obtain rfl : dat = dat2 := by
    rw [hdat] at hdat2
    injection hdat2
  intro img him
  obtain ⟨g, hg, hdc, hti, hz⟩ := (hprops img him).attrsLink
  refine ⟨⟨g, hg, hti⟩, ?_⟩
  intro p hp
  constructor
  · intro t htl
    obtain ⟨s2, _, _, hdt⟩ := (hprops img him).planesTiling t htl
    exact hdt p hp
  · intro htl
    obtain ⟨s1, s2, _, _, _, hdt⟩ := (hprops img him).planesNoTiling htl
    exact hdt p hp

def wImgTile : OmeImage := wDocTile.images.getD 0 noImage

def wPlaneTile : Plane := wImgTile.planes.getD 0 noPlane

theorem C3_plane_delta_t_witness :
    wPlaneTile.deltaT = (wTiling.tileTimestep : Rat) * wTiling.tileTimestepSize ∧
    wPlaneTile.deltaT = 7 := by
  have h := C3_plane_delta_t wOverall wFolderTile true wTcfT2 wDocTile rfl rfl
  have himg : wImgTile ∈ wDocTile.images :=
    List.get?_mem (show wDocTile.images.get? 0 = some wImgTile from rfl)
  have hpl : wPlaneTile ∈ wImgTile.planes :=
    List.get?_mem (show wImgTile.planes.get? 0 = some wPlaneTile from rfl)
  have h2 := ((h wImgTile himg).2 wPlaneTile hpl).1 wTiling rfl
  refine ⟨h2.1, ?_⟩
  rw [h2.1]
  norm_num [wTiling]

/-- C4 (counterexample): with tiling metadata present and a `3D` group with
`SizeZ = 5`, `DataCount = 2`, the emitted image carries only 5 planes while
`z-count × t-count × c-count = 10`: the tiling plane loop ranges over
`shape[2]` only, one timestep's worth of planes. -/
theorem C4_tiling_plane_count_counterexample :
    (transform_tcf wOverall wFolderTile true).toOption.map
        (fun d => d.images.map (fun i => (i.planes.length, i.sizeZ * i.sizeT * i.sizeC))) =
      some [(5, 10)] ∧
    (5 : Nat) ≠ 10 :=
  ⟨rfl, by decide⟩

/-- C4 (amended): with tiling metadata absent an image's plane list has
`shape[1] × shape[2]` entries, which equals the declared
`SizeZ × SizeT × SizeC` whenever the formatted array shape agrees with the
declared sizes; with tiling metadata present the plane list has only
`shape[2]` entries (a single timestep), so the z×t count holds only when the
time count is 1. -/
theorem C4_plane_list_length (overall : OverallMd) (f : FolderFiles) (mip : Bool)
    (doc : OMEDoc) (h : transform_tcf overall f mip = .ok doc) :
    ∀ img ∈ doc.images,
      (f.tiling = none →
        ∃ s1 s2, img.fmtShape.get? 1 = some s1 ∧ img.fmtShape.get? 2 = some s2 ∧
          img.planes.length = s1 * s2 ∧
          (s1 = img.sizeT → s2 = img.sizeZ →
            img.planes.length = img.sizeZ * img.sizeT * img.sizeC)) ∧
      (∀ t, f.tiling = some t →
        ∃ s2, img.fmtShape.get? 2 = some s2 ∧ img.planes.length = s2) := by
  obtain ⟨cfg, md, dat2, hcfg, hdat2, hmd, hexps, hchain, hprops, hids, hrange⟩ :=
    transform_tcf_ok h
  intro img him
  constructor
  · intro htl
    obtain ⟨s1, s2, ha, hb, hlen, _⟩ := (hprops img him).planesNoTiling htl
    refine ⟨s1, s2, ha, hb, hlen, ?_⟩
    rintro rfl rfl
    rw [hlen, (hprops img him).sizeC_eq]
    ring
  · intro t htl
    obtain ⟨s2, ha, hlen, _⟩ := (hprops img him).planesTiling t htl
    exact ⟨s2, ha, hlen⟩

def wImg3D : OmeImage := wDoc.images.getD 0 noImage

theorem C4_plane_list_length_witness :
    wImg3D.planes.length = wImg3D.sizeZ * wImg3D.sizeT * wImg3D.sizeC := by
  have h := C4_plane_list_length wOverall wFolder true wDoc rfl
  have himg : wImg3D ∈ wDoc.images :=
    List.get?_mem (show wDoc.images.get? 0 = some wImg3D from rfl)
  obtain ⟨s1, s2, ha, hb, hlen, himp⟩ := (h wImg3D himg).1 rfl
  refine himp ?_ ?_
  · have e1 : some s1 = some wImg3D.sizeT := by
      rw [← ha]
      decide
    exact Option.some.inj e1
  · have e2 : some s2 = some wImg3D.sizeZ := by
      rw [← hb]
      decide
    exact Option.some.inj e2

/-- C5: a folder whose per-run `config.dat` is missing fails with the
config-read error (the wrapped "Skipping folder" exception), and the folder
driver processes each folder independently, catching per-folder failures: the
failed folder yields no output and its siblings are processed exactly as they
would be on their own. -/
theorem C5_folder_isolation (overall : OverallMd) (l1 l2 : List FolderFiles)
    (f : FolderFiles) (mip : Bool) (hcfg : f.configDat = none) :
    transform_tcf overall f mip =
      .error (.configRead f.name "FileNotFoundError: config.dat") ∧
    transform_folder overall (l1 ++ f :: l2) mip =
      transform_folder overall l1 mip ++
        (f.name, none) :: transform_folder overall l2 mip := by
  refine ⟨transform_tcf_configRead hcfg, ?_⟩
  unfold transform_folder
  rw [List.map_append, List.map_cons, transform_tcf_configRead hcfg]
  rfl

theorem C5_folder_isolation_witness :
    transform_folder wOverall [wFolder, wFolderNoCfg, wFolder] true =
      transform_folder wOverall [wFolder] true ++
        ("20240102.120000.002.A1", none) :: transform_folder wOverall [wFolder] true := by
  have h := C5_folder_isolation wOverall [wFolder] [wFolder] wFolderNoCfg true rfl
  exact h.2

/-- C6: every successfully constructed annotation set contains the `overall`
annotation (id 0), and for a fluorescence sub-channel whose enable flag is
the string `"false"` it never contains that sub-channel's fluorescence
annotation (id i + 3). -/
theorem C6_annotation_set (md : List (String × String)) (tiling : Option TilingInfo)
    (anns : List Ann) (h : def_annotations md tiling = some anns) :
    (∃ a ∈ anns, a.id = 0 ∧ a.ns = "overall") ∧
    ∀ i, i < 3 → pyGet md ("FLCH" ++ toString i ++ "_Enable") = some "false" →
      ∀ a ∈ anns, ¬(a.ns = "fluorescence" ∧ a.id = i + 3) := by
  unfold def_annotations at h
  obtain ⟨a0, ha0, h⟩ := option_bind_ok h
  obtain ⟨hc, _, h⟩ := option_bind_ok h
  obtain ⟨htPart, hht, h⟩ := option_bind_ok h
  obtain ⟨bc, _, h⟩ := option_bind_ok h
  obtain ⟨bfPart, hbf, h⟩ := option_bind_ok h
  obtain ⟨fc, _, h⟩ := option_bind_ok h
  obtain ⟨flPart, hfl, h⟩ := option_bind_ok h
  obtain rfl := option_pure_ok h
  constructor
  · exact ⟨a0, List.mem_cons_self _ _, (overallAnn_shape ha0).1, (overallAnn_shape ha0).2⟩
  · rintro i hi hen a ha ⟨hns, hid⟩
    rcases List.mem_cons.mp ha with rfl | ha2
    · have h2 := (overallAnn_shape ha0).2
      rw [hns] at h2
      exact absurd h2 (by decide)
    rcases List.mem_append.mp ha2 with hm | hmTil
    · rcases List.mem_append.mp hm with hm2 | hmFl
      · rcases List.mem_append.mp hm2 with hmHt | hmBf
        · have hh := htPart_shape hht a hmHt
          rw [hns] at hh
          exact absurd hh (by decide)
        · have hh := bfPart_shape hbf a hmBf
          rw [hns] at hh
          exact absurd hh (by decide)
      · unfold flPartOf at hfl
        cases fc
        · rw [if_neg (by decide)] at hfl
          obtain rfl := option_pure_ok hfl
          cases hmFl
        · rw [if_pos rfl] at hfl
          exact absurd ⟨hns, hid⟩ (flAnnsAll_mem hfl hi hen a hmFl)
    · have hh := tilingPart_ns a hmTil
      rw [hns] at hh
      exact absurd hh (by decide)

def wMdC6 : List (String × String) :=
  [("Medium_Name", "Water"), ("Medium_RI", "1.333"), ("Immersion_RI", "1.337"),
   ("Annotation", "none"), ("SW Version", "3.3.9"), ("Job_Title", "T"),
   ("Images HT3D", "0"), ("Images HT2D", "0"),
   ("FLCH0_Enable", "false"), ("FLCH1_Enable", "false"), ("FLCH2_Enable", "false")]

def wAnnsC6 : List Ann := (def_annotations wMdC6 none).getD []

theorem C6_annotation_set_witness :
    def_annotations wMdC6 none = some wAnnsC6 ∧
    (∃ a ∈ wAnnsC6, a.id = 0 ∧ a.ns = "overall") ∧
    ∀ a ∈ wAnnsC6, ¬(a.ns = "fluorescence" ∧ a.id = 0 + 3) := by
  have e : def_annotations wMdC6 none = some wAnnsC6 := by rfl
  have h := C6_annotation_set wMdC6 none wAnnsC6 e
  exact ⟨e, h.1, h.2 0 (by decide) (by decide)⟩

/-- The fixed excitation wavelength per fluorescence sub-channel index. -/
def flExcOf (c : Char) : Nat :=
  if c = '0' then 385 else if c = '1' then 470 else 570

/-- The fixed display color per fluorescence sub-channel index. -/
def flColorOf (c : Char) : String :=
  if c = '0' then "#0000FFFF" else if c = '1' then "#008000FF" else "#FF0000FF"

/-- C7: for any fluorescence sub-channel index in {0,1,2} and any config
mapping providing the two fluorophore keys, the constructed channel's
excitation wavelength and display color are the fixed constants
(385 nm / blue, 470 nm / green, 570 nm / red), regardless of any other
config values. -/
theorem C7_fl_channel_constants (c : Char) (hc : c = '0' ∨ c = '1' ∨ c = '2')
    (cfg : List (String × String)) (emi fl : String)
    (h1 : pyGet cfg ("FLCH" ++ c.toString ++ "_Fluorophore_Emission") = some emi)
    (h2 : pyGet cfg ("FLCH" ++ c.toString ++ "_Fluorophore_Name") = some fl) :
    ∃ ch, def_channel ("fl" ++ c.toString) cfg = some ch ∧
      ch.excitationWavelength = some (flExcOf c) ∧
      ch.color = some (flColorOf c) ∧
      ch.emissionWavelength = some emi ∧ ch.fluor = some fl := by
  rcases hc with rfl | rfl | rfl
  · refine ⟨Channel.mk none ("Fluorescence " ++ "#0000FFFF") "Other" "Fluorescence" "Transmitted" "LightSource:1" (some 385) 1 (some "#0000FFFF") (some 385) (some emi) (some fl), ?_, rfl, rfl, rfl, rfl⟩
    unfold def_channel
    rw [if_neg (by decide), if_neg (by decide)]
    rw [show ("fl" ++ '0'.toString).data.get? 2 = some '0' from by decide]
    rw [option_some_bind, h1, option_some_bind, h2, option_some_bind]
    rw [show selChannel '0' = some ("#0000FFFF", 385, "LightSource:1") from by decide]
    rfl
  · refine ⟨Channel.mk none ("Fluorescence " ++ "#008000FF") "Other" "Fluorescence" "Transmitted" "LightSource:2" (some 470) 1 (some "#008000FF") (some 470) (some emi) (some fl), ?_, rfl, rfl, rfl, rfl⟩
    unfold def_channel
    rw [if_neg (by decide), if_neg (by decide)]
    rw [show ("fl" ++ '1'.toString).data.get? 2 = some '1' from by decide]
    rw [option_some_bind, h1, option_some_bind, h2, option_some_bind]
    rw [show selChannel '1' = some ("#008000FF", 470, "LightSource:2") from by decide]
    rfl
  · refine ⟨Channel.mk none ("Fluorescence " ++ "#FF0000FF") "Other" "Fluorescence" "Transmitted" "LightSource:3" (some 570) 1 (some "#FF0000FF") (some 570) (some emi) (some fl), ?_, rfl, rfl, rfl, rfl⟩
    unfold def_channel
    rw [if_neg (by decide), if_neg (by decide)]
    rw [show ("fl" ++ '2'.toString).data.get? 2 = some '2' from by decide]
    rw [option_some_bind, h1, option_some_bind, h2, option_some_bind]
    rw [show selChannel '2' = some ("#FF0000FF", 570, "LightSource:3") from by decide]
    rfl

def wFlCfg : List (String × String) :=
  [("FLCH0_Fluorophore_Emission", "520"), ("FLCH0_Fluorophore_Name", "GFP")]

theorem C7_fl_channel_constants_witness :
    (def_channel "fl0" wFlCfg).map (fun ch => (ch.excitationWavelength, ch.color)) =
      some (some 385, some "#0000FFFF") := by
  have h := C7_fl_channel_constants '0' (Or.inl rfl) wFlCfg "520" "GFP"
    (by decide) (by decide)
  obtain ⟨ch, he, hexc, hcol, _, _⟩ := h
  rw [show ("fl" ++ '0'.toString) = "fl0" from by decide] at he
  rw [he]
  simp [hexc, hcol]
  exact ⟨by decide, by decide⟩

/-- C8 (counterexample): a well-formed `Immersion_RI,1.337` line is rewritten
anyway, so its parsed value is `",1.337"` with a spurious leading comma,
while a generic well-formed line parses to the bare value. -/
theorem C8_immersion_counterexample :
    parseDelimLines ',' (fixImmersion ["Immersion_RI,1.337\n"]) =
      some [("Immersion_RI", ",1.337")] ∧
    parseDelimLines ',' ["Other_Key,1.337\n"] = some [("Other_Key", "1.337")] ∧
    (",1.337" : String) ≠ "1.337" :=
  ⟨rfl, rfl, by decide⟩

/-- C8 (amended): the first line starting with `Immersion_RI` is rewritten
unconditionally (the delimiter is inserted without checking whether it is
already there): a malformed line `Immersion_RI<v>` parses to the intended
pair `("Immersion_RI", v)`, but a well-formed line `Immersion_RI,<v>` parses
to `("Immersion_RI", "," ++ v)`, with a spurious leading comma in the
value. -/
theorem C8_immersion_rewrite (v : String) (hv : '\n' ∉ v.data) :
    parseDelimLines ',' (fixImmersion ["Immersion_RI" ++ v ++ "\n"]) =
      some [("Immersion_RI", v)] ∧
    parseDelimLines ',' (fixImmersion ["Immersion_RI," ++ v ++ "\n"]) =
      some [("Immersion_RI", "," ++ v)] := by
  constructor
  · have hfix : fixImmersion ["Immersion_RI" ++ v ++ "\n"]
        = ["Immersion_RI," ++ (v ++ "\n")] := by
      rw [strAppend_assoc]
      simp only [fixImmersion, pyStartsWith_append, if_true, pyDrop_append12]
    rw [hfix]
    refine parseDelimLines_single (imm_line_ne_nl (v ++ "\n")) ?_
    rw [← strAppend_assoc, pyRstripNl_concat v hv]
    exact pySplitOnce_imm v
  · have hpre : ("Immersion_RI," ++ v ++ "\n") = "Immersion_RI" ++ ("," ++ (v ++ "\n")) := by
      rw [show ("Immersion_RI," : String) = "Immersion_RI" ++ "," from by decide]
      rw [strAppend_assoc, strAppend_assoc]
    have hfix : fixImmersion ["Immersion_RI," ++ v ++ "\n"]
        = ["Immersion_RI," ++ ("," ++ (v ++ "\n"))] := by
      rw [hpre]
      simp only [fixImmersion, pyStartsWith_append, if_true, pyDrop_append12]
    rw [hfix]
    have hregroup : ("Immersion_RI," ++ ("," ++ (v ++ "\n")))
        = ("Immersion_RI," ++ ("," ++ v)) ++ "\n" := by
      rw [strAppend_assoc, strAppend_assoc]
    have hv2 : '\n' ∉ ("," ++ v).data := by
      rw [String.data_append]
      intro hmem
      rcases List.mem_append.mp hmem with hm | hm
      · revert hm
        decide
      · exact hv hm
    refine parseDelimLines_single ?_ ?_
    · rw [hregroup]
      exact fun hcontra => imm_line_ne_nl (("," ++ v) ++ "\n")
        (by rw [strAppend_assoc]; exact hcontra)
    · rw [hregroup, pyRstripNl_concat ("," ++ v) hv2]
      exact pySplitOnce_imm ("," ++ v)

theorem C8_immersion_rewrite_witness :
    parseDelimLines ',' (fixImmersion ["Immersion_RI" ++ "1.337" ++ "\n"]) =
      some [("Immersion_RI", "1.337")] ∧
    parseDelimLines ',' (fixImmersion ["Immersion_RI," ++ "1.337" ++ "\n"]) =
      some [("Immersion_RI", "," ++ "1.337")] :=
  C8_immersion_rewrite "1.337" (by decide)

/-- C9: a stage label is attached only to `3DFL` images (any other modality's
image has no stage label), and its z value is the `3DFL` group's `OffsetZ`
attribute minus half the fluorescence volume's physical z-extent
(`ResolutionZ × SizeZ`), rounded to 2 decimal places. -/
theorem C9_stagelabel (overall : OverallMd) (f : FolderFiles) (mip : Bool)
    (dat : TCFData) (doc : OMEDoc) (hdat : f.tcf = some dat)
    (h : transform_tcf overall f mip = .ok doc) :
    ∀ img ∈ doc.images,
      (img.srcGroup ≠ "3DFL" → img.stageLabel = none) ∧
      (img.srcGroup = "3DFL" →
        ∃ flg oz rz sz, findGroup dat "3DFL" = some flg ∧
          flg.attrs.offsetZ = some oz ∧ flg.attrs.resolutionZ = some rz ∧
          flg.attrs.sizeZ = some sz ∧
          img.stageLabel = some { name := "Fluorescence Image Z Shift",
                                  z := npRound2 (oz - rz * (sz : Rat) / 2),
                                  zUnit := "mm" }) := by
  obtain ⟨cfg, md, dat2, hcfg, hdat2, hmd, hexps, hchain, hprops, hids, hrange⟩ :=
    transform_tcf_ok h
  obtain rfl : dat = dat2 := by
    rw [hdat] at hdat2
    injection hdat2
  intro img him
  refine ⟨(hprops img him).stageNone, ?_⟩
  intro heq
  obtain ⟨flg, oz, rz, sz, e1, e2, e3, e4, e5⟩ := (hprops img him).stageFl heq
  exact ⟨flg, oz, rz, sz, e1, e2, e3, e4, e5⟩

def wImgFl : OmeImage := wDocFl.images.getD 0 noImage

theorem C9_stagelabel_witness :
    wImgFl.srcGroup = "3DFL" ∧
    wImgFl.stageLabel = some { name := "Fluorescence Image Z Shift",
                               z := 13 / 50, zUnit := "mm" } := by
  have h := C9_stagelabel wOverall wFolderFl true wTcfFl wDocFl rfl rfl
  have himg : wImgFl ∈ wDocFl.images :=
    List.get?_mem (show wDocFl.images.get? 0 = some wImgFl from rfl)
  have h2 := (h wImgFl himg).2 (by rfl)
  obtain ⟨flg, oz, rz, sz, hg, ho, hr, hs, hsl⟩ := h2
  rw [show findGroup wTcfFl "3DFL" = some wFlGroup from rfl] at hg
  obtain rfl := Option.some.inj hg
  obtain rfl : (3 / 4 : Rat) = oz :=
    Option.some.inj ((show wFlGroup.attrs.offsetZ = some (3 / 4) from rfl).symm.trans ho)
  obtain rfl : (39 / 200 : Rat) = rz :=
    Option.some.inj ((show wFlGroup.attrs.resolutionZ = some (39 / 200) from rfl).symm.trans hr)
  obtain rfl : (5 : Nat) = sz :=
    Option.some.inj ((show wFlGroup.attrs.sizeZ = some 5 from rfl).symm.trans hs)
  refine ⟨rfl, ?_⟩
  rw [hsl]
  simp only [Option.some.injEq]
  refine congrArg (fun z => StageLabel.mk "Fluorescence Image Z Shift" z "mm") ?_
  norm_num [npRound2, roundHalfEven, round_eq]

/-- C10: one experiment record is built per folder from the per-run job
title before the image loop; every output image's experiment reference is
that record's id and the document's experiments list is exactly that one
record. -/
theorem C10_single_experiment (overall : OverallMd) (f : FolderFiles) (mip : Bool)
    (doc : OMEDoc) (cfg : RunConfig) (jt : String)
    (hcfg : read_image_config f = .ok cfg)
    (hjt : pyGet cfg.kv "Job_Title" = some jt)
    (h : transform_tcf overall f mip = .ok doc) :
    doc.experiments = [def_experiment jt overall.experId] ∧
    ∀ img ∈ doc.images, img.experimentRefId = (def_experiment jt overall.experId).id := by
  obtain ⟨cfg2, md, dat, hcfg2, hdat, hmd, hexps, hchain, hprops, hids, hrange⟩ :=
    transform_tcf_ok h
  obtain rfl : cfg = cfg2 := by
    rw [hcfg] at hcfg2
    injection hcfg2
  obtain ⟨jt2, hjt2, hexp2⟩ := define_image_metadata_exp hmd
  obtain rfl : jt = jt2 := by
    rw [hjt] at hjt2
    injection hjt2
  constructor
  · rw [hexps, hexp2]
  · intro img him
    rw [(hprops img him).expRef, hexp2]

def wRunCfg : RunConfig := (read_image_config wFolder).toOption.getD ⟨[], 0, 0, 0, 0⟩

theorem C10_single_experiment_witness :
    wDoc.experiments = [def_experiment "TestJob" "Experimenter:0"] := by
  have h := C10_single_experiment wOverall wFolder true wDoc wRunCfg "TestJob"
    rfl (by decide) rfl
  exact h.1

end Tcf
